import Mathlib

/-!
# Windows runner window wrapper (`windows/runner/win32_window.cpp`)

A shallow embedding of `Win32Window`: its constructor and destructor, `Create`,
`Destroy`, `OnCreate`, `OnDestroy`, `MessageHandler`, `GetWindowClass` and
`WndProc`.

Conventions of the embedding.

* Pointers (`HWND`, `FlutterDesktopWindowControllerRef`) are `Option Nat`;
  `none` is `nullptr`.
* File-scope variables (`g_active_window_count`, `g_window_class_registerd`) are
  the record `Globals`; the member variables are the record `Win32Window`.
  Every method takes the state it reads and returns the state it leaves.
* Calls into the operating system and into the engine are recorded, in program
  order, in a list of `Effect`s.  What such a call answers is an argument of
  the method that makes the call, so every statement below holds for every
  answer the environment can give.
* The operating system runs `WndProc` synchronously while `CreateWindow` and
  `DestroyWindow` execute; the messages it sends are part of the environment's
  answer (`Delivery`).
-/

namespace Runner

/-- Native window handle; `none` is the null handle. -/
abbrev HWND := Option Nat

/-- Engine view controller reference; `none` is the null reference. -/
abbrev FlutterDesktopWindowControllerRef := Option Nat

/-- Window message `WM_NCCREATE`, with its value in the Windows SDK header `winuser.h`. -/
def WM_NCCREATE : Nat := 0x0081

/-- Window message `WM_FONTCHANGE`, with its value in the Windows SDK header `winuser.h`. -/
def WM_FONTCHANGE : Nat := 0x001D

/-- The constant `kWindowClassName`. -/
def kWindowClassName : String := "FLUTTER_RUNNER_WIN32_WINDOW"

/-- The struct `Win32Window::Point`. -/
structure Point where
  x : Nat
  y : Nat
  deriving DecidableEq, Repr

/-- The struct `Win32Window::Size`. -/
structure Size where
  width : Nat
  height : Nat
  deriving DecidableEq, Repr

/-- Calls that leave the program, in the order the program makes them.

`CreateWindow` records the class name, the title, the unscaled origin and size
with the monitor DPI they are scaled by, and the handle the call returns.
`EnableFullDpiSupport` stands for the one to three DPI-awareness calls of
`EnableFullDpiSupportIfAvailable`, and `UpdateTheme` for the `dwmapi` calls of
`UpdateTheme`; neither reads nor writes program state.  Queries whose answer is
only passed on (`GetModuleHandle`, `MonitorFromPoint`,
`FlutterDesktopGetDpiForMonitor`, `LoadCursor`, `LoadIcon`,
`GetCommandLineArguments`, `FlutterDesktopViewControllerGetEngine`,
`FlutterDesktopViewControllerGetView`) are not recorded.  The scaling of origin
and size by `dpi / 96.0` is floating-point arithmetic on arguments of
`CreateWindow` and decides nothing in the program. -/
inductive Effect where
  | EnableFullDpiSupport (hwnd : HWND)
  | RegisterClass (name : String)
  | CreateWindow (cls title : String) (origin : Point) (size : Size) (dpi : Nat)
      (result : HWND)
  | SetWindowLongPtr (window : Nat)
  | UpdateTheme (window : Nat)
  | ShowWindow (hwnd : HWND)
  | DestroyWindow (window : Nat)
  | PostQuitMessage (code : Int)
  | FlutterDesktopViewControllerCreate (parent : HWND)
      (result : FlutterDesktopWindowControllerRef)
  | FlutterDesktopViewControllerDestroy (controller : Nat)
  | RegisterPlugins (controller : Nat)
  | SetChildContent (controller : Nat)
  | FlutterDesktopViewControllerHandleTopLevelWindowProc
      (controller : FlutterDesktopWindowControllerRef) (hwnd : HWND)
      (message wparam lparam : Nat)
  | FlutterDesktopEngineReloadSystemFonts (controller : FlutterDesktopWindowControllerRef)
  | DefWindowProc (hwnd : HWND) (message wparam lparam : Nat)
  deriving DecidableEq, Repr

/-- Member variables of a `Win32Window`, with their in-class initial values.
`controller_` is used by the source file and declared in no file of the
repository fragment; it is a `FlutterDesktopWindowControllerRef`, as
`GetController` returns it, and is taken to start null like `window_handle_`
(`Destroy`, which `Create` runs first, tests it before any assignment). -/
structure Win32Window where
  window_handle_ : HWND := none
  controller_ : FlutterDesktopWindowControllerRef := none
  quit_on_close_ : Bool := false
  deriving DecidableEq, Repr

/-- File-scope variables of `win32_window.cpp`.  Their declarations are not in
the repository fragment: the counter is a signed integer that the constructor
increments and the destructor decrements, the flag a `bool`. -/
structure Globals where
  g_active_window_count : Int := 0
  g_window_class_registerd : Bool := false
  deriving DecidableEq, Repr

/-- One message the operating system sends to `WndProc`, with what the
environment answers if the handler consults it for that message. -/
structure Delivery where
  message : Nat
  wparam : Nat
  lparam : Nat
  /-- Answer of `FlutterDesktopViewControllerHandleTopLevelWindowProc`. -/
  engineHandled : Bool
  /-- Answer of `DefWindowProc`. -/
  osDefault : Int
  deriving DecidableEq, Repr

/-- What a method call leaves behind: return value, file-scope variables,
member variables and the calls made. -/
structure Call (ρ : Type) where
  ret : ρ
  globals : Globals
  self : Win32Window
  effects : List Effect

/-- The virtual member functions of `Win32Window`, as a subclass may override
them.  An override sees and writes the member variables and makes calls. -/
structure Hooks where
  OnCreate : Win32Window → FlutterDesktopWindowControllerRef →
    Bool × Win32Window × List Effect
  OnDestroy : Win32Window → Win32Window × List Effect
  MessageHandler : Win32Window → HWND → Nat → Nat → Nat → Bool → Int →
    Int × Win32Window × List Effect

/-- Base `Win32Window::OnCreate`.  `answer` is what
`FlutterDesktopViewControllerCreate` returns. -/
def OnCreate (self : Win32Window) (answer : FlutterDesktopWindowControllerRef) :
    Bool × Win32Window × List Effect :=
  let created : Win32Window := { self with controller_ := answer }
  let calls : List Effect :=
    [Effect.EnableFullDpiSupport self.window_handle_,
     Effect.FlutterDesktopViewControllerCreate self.window_handle_ answer]
  match answer with
  | none => (false, created, calls)
  | some c => (true, created, calls ++ [Effect.RegisterPlugins c, Effect.SetChildContent c])

/-- Base `Win32Window::OnDestroy`. -/
def OnDestroy (self : Win32Window) : Win32Window × List Effect :=
  match self.controller_ with
  | some c =>
      ({ self with controller_ := none }, [Effect.FlutterDesktopViewControllerDestroy c])
  | none => (self, [])

/-- Base `Win32Window::MessageHandler`.  `engineHandled` is what the engine's
top-level window-proc hook answers, `osDefault` what `DefWindowProc` answers. -/
def MessageHandler (self : Win32Window) (hwnd : HWND) (message wparam lparam : Nat)
    (engineHandled : Bool) (osDefault : Int) : Int × Win32Window × List Effect :=
  let consult : Effect :=
    Effect.FlutterDesktopViewControllerHandleTopLevelWindowProc
      self.controller_ hwnd message wparam lparam
  if engineHandled then
    (0, self, [consult])
  else
    let fonts : List Effect :=
      if message = WM_FONTCHANGE then
        [Effect.FlutterDesktopEngineReloadSystemFonts self.controller_]
      else []
    (osDefault, self, consult :: fonts ++ [Effect.DefWindowProc hwnd message wparam lparam])

/-- The member functions of the base class itself. -/
def base : Hooks :=
  { OnCreate := OnCreate, OnDestroy := OnDestroy, MessageHandler := MessageHandler }

/-- The static `Win32Window::WndProc`, run for a window whose creation
parameter (`lpCreateParams`) is this instance, as `Create` passes `this` to
`CreateWindow`.  `bound` tells whether the `GWLP_USERDATA` slot of the window
holds this instance (what `GetThisFromHandle` reads); the first component of
the result is the slot afterwards. -/
def WndProc (V : Hooks) (bound : Bool) (self : Win32Window) (window : Nat) (d : Delivery) :
    Bool × Int × Win32Window × List Effect :=
  if d.message = WM_NCCREATE then
    (true, d.osDefault, { self with window_handle_ := some window },
      [Effect.SetWindowLongPtr window, Effect.EnableFullDpiSupport (some window),
       Effect.DefWindowProc (some window) d.message d.wparam d.lparam])
  else if bound then
    let r := V.MessageHandler self (some window) d.message d.wparam d.lparam
      d.engineHandled d.osDefault
    (bound, r.1, r.2.1, r.2.2)
  else
    (bound, d.osDefault, self,
      [Effect.DefWindowProc (some window) d.message d.wparam d.lparam])

/-- The operating system sends the messages `ds` for `window` to `WndProc`, one
after the other. -/
def dispatch (V : Hooks) (window : Nat) :
    Bool → Win32Window → List Delivery → Bool × Win32Window × List Effect
  | bound, self, [] => (bound, self, [])
  | bound, self, d :: ds =>
      let r := WndProc V bound self window d
      let rest := dispatch V window r.1 r.2.2.1 ds
      (rest.1, rest.2.1, r.2.2.2 ++ rest.2.2)

/-- `Win32Window::GetWindowClass`. -/
def GetWindowClass (g : Globals) : String × Globals × List Effect :=
  if g.g_window_class_registerd then
    (kWindowClassName, g, [])
  else
    (kWindowClassName, { g with g_window_class_registerd := true },
      [Effect.RegisterClass kWindowClassName])

/-- `Win32Window::Destroy`.  `closing` are the messages the operating system
sends to `WndProc` while `DestroyWindow` runs. -/
def Destroy (V : Hooks) (g : Globals) (self : Win32Window) (closing : List Delivery) :
    Call Unit :=
  let released := V.OnDestroy self
  let torn : Win32Window × List Effect :=
    match released.1.window_handle_ with
    | some h =>
        let sent := dispatch V h true released.1 closing
        ({ sent.2.1 with window_handle_ := none }, Effect.DestroyWindow h :: sent.2.2)
    | none => (released.1, [])
  let quit : List Effect :=
    if g.g_active_window_count = 0 then [Effect.PostQuitMessage 0] else []
  { ret := (), globals := g, self := torn.1, effects := released.2 ++ torn.2 ++ quit }

/-- How the operating system carries out one `CreateWindow` call that gets as
far as allocating a window: the handle, the messages sent to `WndProc` before
`WM_NCCREATE`, the parameters and default answer of `WM_NCCREATE` itself, the
messages after it, and whether the call completes (returns the handle) or
gives up (returns null). -/
structure WindowCreation where
  window : Nat
  early : List Delivery
  nccreate : Delivery
  late : List Delivery
  completes : Bool
  deriving DecidableEq, Repr

/-- The messages of one window creation, in the order sent. -/
def WindowCreation.messages (c : WindowCreation) : List Delivery :=
  c.early ++ { c.nccreate with message := WM_NCCREATE } :: c.late

/-- What the `CreateWindow` call returns; `none` as the creation means that the
operating system refuses before it sends any message. -/
def returned : Option WindowCreation → HWND
  | none => none
  | some c => if c.completes then some c.window else none

/-- What the environment answers during one `Create` call. -/
structure CreateEnv where
  /-- Messages sent while `DestroyWindow` runs in the leading `Destroy`. -/
  closing : List Delivery
  /-- Answer of `FlutterDesktopGetDpiForMonitor`. -/
  dpi : Nat
  /-- Course of the `CreateWindow` call. -/
  creation : Option WindowCreation
  /-- Answer of `FlutterDesktopViewControllerCreate`. -/
  controller : FlutterDesktopWindowControllerRef

/-- The `CreateWindow` call of `Create`, with the `WndProc` runs it causes. -/
def CreateWindow (V : Hooks) (self : Win32Window) (cls title : String) (origin : Point)
    (size : Size) (env : CreateEnv) : HWND × Win32Window × List Effect :=
  let call : Effect := Effect.CreateWindow cls title origin size env.dpi (returned env.creation)
  match env.creation with
  | none => (none, self, [call])
  | some c =>
      let sent := dispatch V c.window false self c.messages
      (returned env.creation, sent.2.1, call :: sent.2.2)

/-- `Win32Window::Create`. -/
def Create (V : Hooks) (g : Globals) (self : Win32Window) (title : String) (origin : Point)
    (size : Size) (env : CreateEnv) : Call Bool :=
  let d := Destroy V g self env.closing
  let cls := GetWindowClass d.globals
  let cw := CreateWindow V d.self cls.1 title origin size env
  match cw.1 with
  | none =>
      { ret := false, globals := cls.2.1, self := cw.2.1,
        effects := d.effects ++ cls.2.2 ++ cw.2.2 }
  | some window =>
      let oc := V.OnCreate cw.2.1 env.controller
      { ret := oc.1, globals := cls.2.1, self := oc.2.1,
        effects := d.effects ++ cls.2.2 ++ cw.2.2 ++ Effect.UpdateTheme window :: oc.2.2 }

/-- `Win32Window::Show`.  `shown` is what `ShowWindow` answers. -/
def Show (self : Win32Window) (shown : Bool) : Bool × List Effect :=
  (shown, [Effect.ShowWindow self.window_handle_])

/-- `Win32Window::SetQuitOnClose`. -/
def SetQuitOnClose (self : Win32Window) (quit_on_close : Bool) : Win32Window :=
  { self with quit_on_close_ := quit_on_close }

/-- `Win32Window::GetController`. -/
def GetController (self : Win32Window) : FlutterDesktopWindowControllerRef :=
  self.controller_

/-- The constructor `Win32Window::Win32Window`. -/
def construct (g : Globals) : Globals × Win32Window :=
  ({ g with g_active_window_count := g.g_active_window_count + 1 }, {})

/-- The implicitly defined copy constructor of `Win32Window`: the header
declares no copy constructor and deletes none, so the class is copyable and a
copy takes the member variables of `other` one by one.  The body of the
user-provided constructor does not run, so the counter stays as it is. -/
def copyConstruct (g : Globals) (other : Win32Window) : Globals × Win32Window :=
  (g, other)

/-- The destructor `Win32Window::~Win32Window`.  Inside a destructor a virtual
call runs the member function of the class being destroyed, so `Destroy` runs
with the base `OnDestroy`. -/
def destruct (g : Globals) (self : Win32Window) (closing : List Delivery) : Call Unit :=
  Destroy base { g with g_active_window_count := g.g_active_window_count - 1 } self closing

/-! ## The process: several instances over the shared file-scope variables -/

/-- State of the process: the file-scope variables, the addresses of the
instances constructed and not yet destroyed, the member variables at each
address, and all calls made so far. -/
structure Process where
  globals : Globals := {}
  alive : List Nat := []
  obj : Nat → Win32Window := fun _ => {}
  trace : List Effect := []

/-- What the program does with its windows. -/
inductive Op where
  | construct (a : Nat)
  | copyConstruct (a : Nat) (other : Nat)
  | Create (a : Nat) (title : String) (origin : Point) (size : Size) (env : CreateEnv)
  | Show (a : Nat) (shown : Bool)
  | SetQuitOnClose (a : Nat) (quit_on_close : Bool)
  | Destroy (a : Nat) (closing : List Delivery)
  | destruct (a : Nat) (closing : List Delivery)

/-- One operation on the instance at address `a`.  The result is `none` where
C++ gives the program no meaning: construction at an address in use, and any
use of an address without a live instance (also as the source of a copy).  All
instances are of the base class. -/
def step (s : Process) : Op → Option Process
  | .construct a =>
      if a ∈ s.alive then none
      else
        let r := construct s.globals
        some { s with globals := r.1, alive := a :: s.alive,
                      obj := Function.update s.obj a r.2 }
  | .copyConstruct a other =>
      if a ∉ s.alive ∧ other ∈ s.alive then
        let r := copyConstruct s.globals (s.obj other)
        some { s with globals := r.1, alive := a :: s.alive,
                      obj := Function.update s.obj a r.2 }
      else none
  | .Create a title origin size env =>
      if a ∈ s.alive then
        let r := Create base s.globals (s.obj a) title origin size env
        some { s with globals := r.globals, obj := Function.update s.obj a r.self,
                      trace := s.trace ++ r.effects }
      else none
  | .Show a shown =>
      if a ∈ s.alive then
        some { s with trace := s.trace ++ (Show (s.obj a) shown).2 }
      else none
  | .SetQuitOnClose a q =>
      if a ∈ s.alive then
        some { s with obj := Function.update s.obj a (SetQuitOnClose (s.obj a) q) }
      else none
  | .Destroy a closing =>
      if a ∈ s.alive then
        let r := Destroy base s.globals (s.obj a) closing
        some { s with globals := r.globals, obj := Function.update s.obj a r.self,
                      trace := s.trace ++ r.effects }
      else none
  | .destruct a closing =>
      if a ∈ s.alive then
        let r := destruct s.globals (s.obj a) closing
        some { s with globals := r.globals, alive := s.alive.erase a,
                      obj := Function.update s.obj a r.self,
                      trace := s.trace ++ r.effects }
      else none

/-- A sequence of operations, from left to right. -/
def run : Process → List Op → Option Process
  | s, [] => some s
  | s, op :: ops => (step s op).bind (fun t => run t ops)

/-- The process at start: counter zero, flag unset, no instance, no call made. -/
def start : Process := {}

/-! ## Observations on traces and operation sequences -/

/-- Calls that the base `WndProc` can make while the operating system sends it
messages: they create and destroy nothing. -/
def Effect.passive : Effect → Bool
  | .SetWindowLongPtr _ => true
  | .EnableFullDpiSupport _ => true
  | .FlutterDesktopViewControllerHandleTopLevelWindowProc _ _ _ _ _ => true
  | .FlutterDesktopEngineReloadSystemFonts _ => true
  | .DefWindowProc _ _ _ _ => true
  | _ => false

/-- The call is `RegisterClass`. -/
def Effect.isRegisterClass : Effect → Bool
  | .RegisterClass _ => true
  | _ => false

/-- The call is `PostQuitMessage`. -/
def Effect.isPostQuitMessage : Effect → Bool
  | .PostQuitMessage _ => true
  | _ => false

/-- The call is `DestroyWindow`. -/
def Effect.isDestroyWindow : Effect → Bool
  | .DestroyWindow _ => true
  | _ => false

/-- The call is `CreateWindow`. -/
def Effect.isCreateWindow : Effect → Bool
  | .CreateWindow _ _ _ _ _ _ => true
  | _ => false

/-- Number of `RegisterClass` calls in a trace. -/
def registrations (t : List Effect) : Nat := t.countP Effect.isRegisterClass

/-- The operation is a copy construction. -/
def Op.isCopy : Op → Bool
  | .copyConstruct _ _ => true
  | _ => false

/-- The operation is a `Create` call. -/
def Op.isCreate : Op → Bool
  | .Create _ _ _ _ _ => true
  | _ => false

/-- The call is `FlutterDesktopViewControllerCreate`. -/
def Effect.isControllerCreate : Effect → Bool
  | .FlutterDesktopViewControllerCreate _ _ => true
  | _ => false

/-- The address of the instance an operation is about. -/
def Op.address : Op → Nat
  | .construct a => a
  | .copyConstruct a _ => a
  | .Create a _ _ _ _ => a
  | .Show a _ => a
  | .SetQuitOnClose a _ => a
  | .Destroy a _ => a
  | .destruct a _ => a

/-- The windows that exist after a call, given those that existed before it: a
`CreateWindow` that returns a handle adds that window, `DestroyWindow` removes
the window it is called for. -/
def liveStep (live : List Nat) : Effect → List Nat
  | .CreateWindow _ _ _ _ _ (some w) => w :: live
  | .DestroyWindow w => live.erase w
  | _ => live

/-- The windows that exist after a trace. -/
def liveAfter (live : List Nat) (t : List Effect) : List Nat := t.foldl liveStep live

/-- The largest number of windows that exist at one time in the course of a
trace: before its first call, between two calls, or after its last. -/
def peakLive : List Nat → List Effect → Nat
  | live, [] => live.length
  | live, e :: t => max live.length (peakLive (liveStep live e) t)

/-! ## Sample environments and runs -/

/-- A window creation that completes with handle 7: `WM_NCCREATE`, then one
more message (`WM_CREATE`, 1) that the engine does not handle. -/
def sampleCreation : WindowCreation :=
  { window := 7, early := [],
    nccreate := { message := WM_NCCREATE, wparam := 0, lparam := 0,
                  engineHandled := false, osDefault := 1 },
    late := [{ message := 1, wparam := 0, lparam := 0, engineHandled := false,
               osDefault := 0 }],
    completes := true }

/-- The window is created and the engine returns controller 3. -/
def envOk : CreateEnv :=
  { closing := [], dpi := 96, creation := some sampleCreation, controller := some 3 }

/-- The window is created and the engine returns no controller. -/
def envNoController : CreateEnv :=
  { closing := [], dpi := 96, creation := some sampleCreation, controller := none }

/-- The process after `ops`, or the start state if the sequence has no meaning. -/
def after (ops : List Op) : Process := (run start ops).getD start

/-- Two instances are constructed, at addresses 0 and 1. -/
def twoConstructed : List Op := [Op.construct 0, Op.construct 1]

/-- Two instances, the first with a window; the second is then destroyed. -/
def sampleLifecycle : List Op :=
  [Op.construct 0, Op.construct 1, Op.Create 0 "main" ⟨10, 10⟩ ⟨1280, 720⟩ envOk,
   Op.destruct 1 []]

/-- One instance gets a window and a controller and is then destroyed with
`Destroy`; the instance itself stays alive. -/
def sampleDestroyed : List Op :=
  [Op.construct 0, Op.Create 0 "main" ⟨10, 10⟩ ⟨1280, 720⟩ envOk, Op.Destroy 0 []]

/-- An instance is constructed at address 0 and copied to address 1. -/
def sampleCopy : List Op := [Op.construct 0, Op.copyConstruct 1 0]

/-- One instance is constructed and `Destroy` is called on it. -/
def sampleIdle : List Op := [Op.construct 0, Op.Destroy 0 []]

/-- One instance on which `Create` succeeds twice in a row. -/
def sampleRecreate : List Op :=
  [Op.construct 0, Op.Create 0 "main" ⟨10, 10⟩ ⟨1280, 720⟩ envOk,
   Op.Create 0 "again" ⟨20, 20⟩ ⟨640, 480⟩ envOk]

/-! ## Lemmas -/

theorem run_invariant (P : Process → Prop)
    (hstep : ∀ s op t, P s → step s op = some t → P t) :
    ∀ (ops : List Op) (s t : Process), P s → run s ops = some t → P t := by
  intro ops
  induction ops with
  | nil =>
      intro s t hs h
      simp [run] at h
      subst h
      exact hs
  | cons op ops ih =>
      intro s t hs h
      cases hso : step s op with
      | none => simp [run, hso] at h
      | some u =>
          simp [run, hso] at h
          exact ih u t (hstep s op u hs hso) h

theorem run_invariant_on (Q : Op → Prop) (P : Process → Prop)
    (hstep : ∀ s op t, Q op → P s → step s op = some t → P t) :
    ∀ (ops : List Op) (s t : Process), (∀ op ∈ ops, Q op) → P s →
      run s ops = some t → P t := by
  intro ops
  induction ops with
  | nil =>
      intro s t _ hs h
      simp [run] at h
      subst h
      exact hs
  | cons op ops ih =>
      intro s t hq hs h
      cases hso : step s op with
      | none => simp [run, hso] at h
      | some u =>
          simp [run, hso] at h
          exact ih u t (fun o ho => hq o (List.mem_cons_of_mem _ ho))
            (hstep s op u (hq op (List.mem_cons_self _ _)) hs hso) h

theorem run_append (s : Process) (xs ys : List Op) :
    run s (xs ++ ys) = (run s xs).bind (fun t => run t ys) := by
  induction xs generalizing s with
  | nil => simp [run]
  | cons x xs ih =>
      cases h : step s x with
      | none => simp [run, h]
      | some u => simp [run, h, ih]

theorem run_split (s u : Process) (xs ys : List Op) (h : run s (xs ++ ys) = some u) :
    ∃ t, run s xs = some t ∧ run t ys = some u := by
  rw [run_append] at h
  cases hx : run s xs with
  | none => simp [hx] at h
  | some t => exact ⟨t, rfl, by simpa [hx] using h⟩

theorem Destroy_globals (V : Hooks) (g : Globals) (self : Win32Window)
    (closing : List Delivery) : (Destroy V g self closing).globals = g := rfl

theorem GetWindowClass_count (g : Globals) :
    (GetWindowClass g).2.1.g_active_window_count = g.g_active_window_count := by
  unfold GetWindowClass
  split <;> rfl

theorem GetWindowClass_flag (g : Globals) :
    (GetWindowClass g).2.1.g_window_class_registerd = true := by
  unfold GetWindowClass
  split
  · assumption
  · rfl

theorem GetWindowClass_name (g : Globals) : (GetWindowClass g).1 = kWindowClassName := by
  unfold GetWindowClass
  split <;> rfl

theorem Create_globals (V : Hooks) (g : Globals) (self : Win32Window) (title : String)
    (origin : Point) (size : Size) (env : CreateEnv) :
    (Create V g self title origin size env).globals = (GetWindowClass g).2.1 := by
  unfold Create
  simp only [Destroy_globals]
  split <;> rfl

theorem WndProc_base_controller (bound : Bool) (self : Win32Window) (window : Nat)
    (d : Delivery) : (WndProc base bound self window d).2.2.1.controller_ = self.controller_ := by
  unfold WndProc
  split
  · rfl
  · split
    · simp only [base, MessageHandler]
      split <;> rfl
    · rfl

theorem WndProc_base_quit (bound : Bool) (self : Win32Window) (window : Nat)
    (d : Delivery) :
    (WndProc base bound self window d).2.2.1.quit_on_close_ = self.quit_on_close_ := by
  unfold WndProc
  split
  · rfl
  · split
    · simp only [base, MessageHandler]
      split <;> rfl
    · rfl

theorem WndProc_base_handle (bound : Bool) (self : Win32Window) (window : Nat)
    (d : Delivery) :
    (WndProc base bound self window d).2.2.1.window_handle_ =
      if d.message = WM_NCCREATE then some window else self.window_handle_ := by
  unfold WndProc
  split
  · rfl
  · split
    · simp only [base, MessageHandler]
      split <;> rfl
    · rfl

theorem WndProc_base_passive (bound : Bool) (self : Win32Window) (window : Nat)
    (d : Delivery) : ∀ e ∈ (WndProc base bound self window d).2.2.2, e.passive = true := by
  unfold WndProc
  split
  · intro e he
    simp at he
    rcases he with rfl | rfl | rfl <;> rfl
  · split
    · simp only [base, MessageHandler]
      split
      · intro e he
        simp at he
        subst he
        rfl
      · split
        · intro e he
          simp at he
          rcases he with rfl | rfl | rfl <;> rfl
        · intro e he
          simp at he
          rcases he with rfl | rfl <;> rfl
    · intro e he
      simp at he
      subst he
      rfl

theorem dispatch_base_controller (window : Nat) (ds : List Delivery) :
    ∀ (bound : Bool) (self : Win32Window),
      (dispatch base window bound self ds).2.1.controller_ = self.controller_ := by
  induction ds with
  | nil => intro bound self; rfl
  | cons d ds ih =>
      intro bound self
      simp only [dispatch]
      rw [ih, WndProc_base_controller]

theorem dispatch_base_quit (window : Nat) (ds : List Delivery) :
    ∀ (bound : Bool) (self : Win32Window),
      (dispatch base window bound self ds).2.1.quit_on_close_ = self.quit_on_close_ := by
  induction ds with
  | nil => intro bound self; rfl
  | cons d ds ih =>
      intro bound self
      simp only [dispatch]
      rw [ih, WndProc_base_quit]

theorem dispatch_base_passive (window : Nat) (ds : List Delivery) :
    ∀ (bound : Bool) (self : Win32Window),
      ∀ e ∈ (dispatch base window bound self ds).2.2, e.passive = true := by
  induction ds with
  | nil => intro bound self e he; simp [dispatch] at he
  | cons d ds ih =>
      intro bound self e he
      simp only [dispatch, List.mem_append] at he
      rcases he with he | he
      · exact WndProc_base_passive _ _ _ _ e he
      · exact ih _ _ e he

theorem dispatch_base_handle_of_mem (window : Nat) (ds : List Delivery) :
    ∀ (bound : Bool) (self : Win32Window), (∃ d ∈ ds, d.message = WM_NCCREATE) →
      (dispatch base window bound self ds).2.1.window_handle_ = some window := by
  induction ds with
  | nil => intro bound self h; simp at h
  | cons d ds ih =>
      intro bound self h
      simp only [dispatch]
      by_cases hds : ∃ d ∈ ds, d.message = WM_NCCREATE
      · exact ih _ _ hds
      · have hd : d.message = WM_NCCREATE := by
          rcases h with ⟨x, hx, hm⟩
          rcases List.mem_cons.mp hx with rfl | hx
          · exact hm
          · exact absurd ⟨x, hx, hm⟩ hds
        have keep : ∀ (ds : List Delivery) (b : Bool) (w : Win32Window),
            (¬ ∃ d ∈ ds, d.message = WM_NCCREATE) →
            (dispatch base window b w ds).2.1.window_handle_ = w.window_handle_ := by
          intro ds
          induction ds with
          | nil => intro b w _; rfl
          | cons x xs ihx =>
              intro b w hno
              simp only [dispatch]
              rw [ihx, WndProc_base_handle]
              · have : ¬ x.message = WM_NCCREATE := fun hx => hno ⟨x, List.mem_cons_self _ _, hx⟩
                simp [this]
              · exact fun ⟨y, hy, hm⟩ => hno ⟨y, List.mem_cons_of_mem _ hy, hm⟩
        rw [keep ds _ _ hds, WndProc_base_handle]
        simp [hd]

theorem messages_has_nccreate (c : WindowCreation) :
    ∃ d ∈ c.messages, d.message = WM_NCCREATE :=
  ⟨{ c.nccreate with message := WM_NCCREATE }, by simp [WindowCreation.messages], rfl⟩

theorem Win32Window_eq (a b : Win32Window) (h1 : a.window_handle_ = b.window_handle_)
    (h2 : a.controller_ = b.controller_) (h3 : a.quit_on_close_ = b.quit_on_close_) :
    a = b := by
  cases a
  cases b
  simp_all

theorem OnDestroy_self (self : Win32Window) :
    (OnDestroy self).1 = { self with controller_ := none } := by
  unfold OnDestroy
  split
  · rfl
  · next h =>
      apply Win32Window_eq <;> simp [h]

theorem OnDestroy_effects (self : Win32Window) :
    (OnDestroy self).2 =
      match self.controller_ with
      | some c => [Effect.FlutterDesktopViewControllerDestroy c]
      | none => [] := by
  unfold OnDestroy
  split <;> simp_all

theorem Destroy_base_self (g : Globals) (self : Win32Window) (closing : List Delivery) :
    (Destroy base g self closing).self =
      { window_handle_ := none, controller_ := none,
        quit_on_close_ := self.quit_on_close_ } := by
  simp only [Destroy, base, OnDestroy_self]
  cases hw : self.window_handle_ with
  | none =>
      apply Win32Window_eq <;> simp [hw]
  | some h =>
      have hc := dispatch_base_controller h closing true { self with controller_ := none }
      have hq := dispatch_base_quit h closing true { self with controller_ := none }
      simp only [base] at hc hq
      apply Win32Window_eq
      · rfl
      · simpa [hw] using hc
      · simpa [hw] using hq

theorem Destroy_base_effects (g : Globals) (self : Win32Window) (closing : List Delivery) :
    (Destroy base g self closing).effects =
      (match self.controller_ with
        | some c => [Effect.FlutterDesktopViewControllerDestroy c]
        | none => []) ++
      (match self.window_handle_ with
        | some h =>
            Effect.DestroyWindow h ::
              (dispatch base h true { self with controller_ := none } closing).2.2
        | none => []) ++
      (if g.g_active_window_count = 0 then [Effect.PostQuitMessage 0] else []) := by
  simp only [Destroy, base, OnDestroy_self, OnDestroy_effects]
  cases hw : self.window_handle_ <;> rfl

theorem CreateWindow_ret (V : Hooks) (self : Win32Window) (cls title : String)
    (origin : Point) (size : Size) (env : CreateEnv) :
    (CreateWindow V self cls title origin size env).1 = returned env.creation := by
  unfold CreateWindow
  split
  · next h => simp [h, returned]
  · rfl

theorem CreateWindow_base_self (self : Win32Window) (cls title : String)
    (origin : Point) (size : Size) (env : CreateEnv) :
    (CreateWindow base self cls title origin size env).2.1 =
      { self with window_handle_ :=
          match env.creation with
          | none => self.window_handle_
          | some c => some c.window } := by
  unfold CreateWindow
  split
  · next h => simp
  · next c h =>
      apply Win32Window_eq
      · simpa using dispatch_base_handle_of_mem c.window c.messages false self
          (messages_has_nccreate c)
      · simpa using dispatch_base_controller c.window c.messages false self
      · simpa using dispatch_base_quit c.window c.messages false self

theorem CreateWindow_base_effects (self : Win32Window) (cls title : String)
    (origin : Point) (size : Size) (env : CreateEnv) :
    ∃ sent : List Effect, (∀ e ∈ sent, e.passive = true) ∧
      (CreateWindow base self cls title origin size env).2.2 =
        Effect.CreateWindow cls title origin size env.dpi (returned env.creation) :: sent := by
  unfold CreateWindow
  split
  · exact ⟨[], by simp, rfl⟩
  · next c h =>
      exact ⟨_, dispatch_base_passive c.window c.messages false self, rfl⟩

theorem OnCreate_ret (self : Win32Window) (answer : FlutterDesktopWindowControllerRef) :
    (OnCreate self answer).1 = answer.isSome := by
  unfold OnCreate
  split <;> rfl

theorem OnCreate_self (self : Win32Window) (answer : FlutterDesktopWindowControllerRef) :
    (OnCreate self answer).2.1 = { self with controller_ := answer } := by
  unfold OnCreate
  split <;> rfl

theorem Create_base_ret (g : Globals) (self : Win32Window) (title : String)
    (origin : Point) (size : Size) (env : CreateEnv) :
    (Create base g self title origin size env).ret =
      ((returned env.creation).isSome && env.controller.isSome) := by
  unfold Create
  simp only [CreateWindow_ret]
  split
  · next h => simp [h]
  · next w h => simp [h, base, OnCreate_ret]

theorem Create_base_self (g : Globals) (self : Win32Window) (title : String)
    (origin : Point) (size : Size) (env : CreateEnv) :
    (Create base g self title origin size env).self =
      { window_handle_ := env.creation.map (fun c => c.window),
        controller_ := if (returned env.creation).isSome then env.controller else none,
        quit_on_close_ := self.quit_on_close_ } := by
  unfold Create
  simp only [CreateWindow_ret]
  split
  · next h =>
      simp only [CreateWindow_base_self, Destroy_base_self, h]
      cases hc : env.creation <;> simp
  · next w h =>
      simp only [base, OnCreate_self]
      have := CreateWindow_base_self (Destroy base g self env.closing).self
        (GetWindowClass (Destroy base g self env.closing).globals).1 title origin size env
      simp only [base] at this
      rw [this]
      simp only [Destroy_base_self, h]
      have := Destroy_base_self g self env.closing
      simp only [base] at this
      rw [this]
      cases hc : env.creation <;> simp

theorem OnCreate_effects (self : Win32Window) (answer : FlutterDesktopWindowControllerRef) :
    (OnCreate self answer).2.2 =
      Effect.EnableFullDpiSupport self.window_handle_ ::
      Effect.FlutterDesktopViewControllerCreate self.window_handle_ answer ::
      (match answer with
        | none => []
        | some c => [Effect.RegisterPlugins c, Effect.SetChildContent c]) := by
  unfold OnCreate
  split <;> rfl

theorem base_OnCreate : base.OnCreate = OnCreate := rfl

theorem Create_base_effects (g : Globals) (self : Win32Window) (title : String)
    (origin : Point) (size : Size) (env : CreateEnv) :
    ∃ sent : List Effect, (∀ e ∈ sent, e.passive = true) ∧
      (Create base g self title origin size env).effects =
        (Destroy base g self env.closing).effects ++ (GetWindowClass g).2.2 ++
        Effect.CreateWindow kWindowClassName title origin size env.dpi
          (returned env.creation) :: sent ++
        (match returned env.creation with
          | none => []
          | some w =>
              Effect.UpdateTheme w ::
              Effect.EnableFullDpiSupport (some w) ::
              Effect.FlutterDesktopViewControllerCreate (some w) env.controller ::
              (match env.controller with
                | none => []
                | some c => [Effect.RegisterPlugins c, Effect.SetChildContent c])) := by
  obtain ⟨sent, hsent, hcw⟩ := CreateWindow_base_effects (Destroy base g self env.closing).self
    kWindowClassName title origin size env
  have hself := CreateWindow_base_self (Destroy base g self env.closing).self
    kWindowClassName title origin size env
  refine ⟨sent, hsent, ?_⟩
  unfold Create
  simp only [CreateWindow_ret, Destroy_globals, GetWindowClass_name]
  split
  · next h =>
      rw [hcw]
      simp [h]
  · next w h =>
      have hbase : base.OnCreate = OnCreate := rfl
      rw [hcw, hself, hbase, OnCreate_effects]
      cases hc : env.creation with
      | none => simp [hc, returned] at h
      | some c =>
          have hw : c.window = w := by
            simp only [hc, returned] at h
            split at h
            · simpa using h
            · simp at h
          simp [h, hw]

theorem step_counted (s : Process) (op : Op) (t : Process) (hop : op.isCopy = false)
    (hs : s.globals.g_active_window_count = (s.alive.length : Int) ∧ s.alive.Nodup)
    (h : step s op = some t) :
    t.globals.g_active_window_count = (t.alive.length : Int) ∧ t.alive.Nodup := by
  obtain ⟨hc, hn⟩ := hs
  cases op with
  | copyConstruct a other => simp [Op.isCopy] at hop
  | construct a =>
      simp only [step] at h
      split at h
      · simp at h
      · next ha =>
          simp only [Option.some.injEq] at h
          subst h
          simp [construct, hc, hn, ha]
  | Create a title origin size env =>
      simp only [step] at h
      split at h
      · simp only [Option.some.injEq] at h
        subst h
        simp [Create_globals, GetWindowClass_count, hc, hn]
      · simp at h
  | Show a shown =>
      simp only [step] at h
      split at h
      · simp only [Option.some.injEq] at h
        subst h
        exact ⟨hc, hn⟩
      · simp at h
  | SetQuitOnClose a q =>
      simp only [step] at h
      split at h
      · simp only [Option.some.injEq] at h
        subst h
        exact ⟨hc, hn⟩
      · simp at h
  | Destroy a closing =>
      simp only [step] at h
      split at h
      · simp only [Option.some.injEq] at h
        subst h
        simp [Destroy_globals, hc, hn]
      · simp at h
  | destruct a closing =>
      simp only [step] at h
      split at h
      · next ha =>
          simp only [Option.some.injEq] at h
          subst h
          refine ⟨?_, hn.erase a⟩
          have hpos : 0 < s.alive.length := List.length_pos_of_mem ha
          simp only [destruct, Destroy_globals, List.length_erase_of_mem ha, hc]
          omega
      · simp at h

theorem run_counted (ops : List Op) (s : Process)
    (hcopy : ∀ op ∈ ops, op.isCopy = false) (h : run start ops = some s) :
    s.globals.g_active_window_count = (s.alive.length : Int) ∧ s.alive.Nodup :=
  run_invariant_on (fun op => op.isCopy = false)
    (fun s => s.globals.g_active_window_count = (s.alive.length : Int) ∧ s.alive.Nodup)
    step_counted ops start s hcopy (by simp [start]) h

/-! ## C1: the active-window counter -/

/-- C1 fails on the code: an instance is constructed at address 0 and copied
to address 1 by the implicit copy constructor, which does not count the copy,
so the counter is one with two live instances.  The destructor of the copy
brings the counter to zero, and posts the quit message, while the original is
alive; the destructor of the original then brings the counter to minus one. -/
theorem copy_construction_breaks_counter :
    run start sampleCopy = some (after sampleCopy) ∧
    (after sampleCopy).alive = [1, 0] ∧
    (after sampleCopy).globals.g_active_window_count = 1 ∧
    run start (sampleCopy ++ [Op.destruct 1 []]) =
      some (after (sampleCopy ++ [Op.destruct 1 []])) ∧
    (after (sampleCopy ++ [Op.destruct 1 []])).alive = [0] ∧
    (after (sampleCopy ++ [Op.destruct 1 []])).globals.g_active_window_count = 0 ∧
    (after (sampleCopy ++ [Op.destruct 1 []])).trace = [Effect.PostQuitMessage 0] ∧
    run start (sampleCopy ++ [Op.destruct 1 [], Op.destruct 0 []]) =
      some (after (sampleCopy ++ [Op.destruct 1 [], Op.destruct 0 []])) ∧
    (after (sampleCopy ++ [Op.destruct 1 [], Op.destruct 0 []])).alive = [] ∧
    (after (sampleCopy ++ [Op.destruct 1 [], Op.destruct 0 []])).globals.g_active_window_count
      = -1 := by
  refine ⟨rfl, by decide, by decide, rfl, by decide, by decide, by decide, rfl, by decide,
    by decide⟩

/-! ## C8: window class registration -/

theorem registrations_append (xs ys : List Effect) :
    registrations (xs ++ ys) = registrations xs + registrations ys := by
  simp [registrations, List.countP_append]

theorem registrations_passive (xs : List Effect) (h : ∀ e ∈ xs, e.passive = true) :
    registrations xs = 0 := by
  unfold registrations
  rw [List.countP_eq_zero]
  intro e he
  have := h e he
  cases e <;> simp_all [Effect.passive, Effect.isRegisterClass]

theorem registrations_Destroy (g : Globals) (self : Win32Window) (closing : List Delivery) :
    registrations (Destroy base g self closing).effects = 0 := by
  rw [Destroy_base_effects, registrations_append, registrations_append]
  have h1 : registrations (match self.controller_ with
      | some c => [Effect.FlutterDesktopViewControllerDestroy c]
      | none => []) = 0 := by
    cases self.controller_ <;> rfl
  have h2 : registrations (match self.window_handle_ with
      | some h =>
          Effect.DestroyWindow h ::
            (dispatch base h true { self with controller_ := none } closing).2.2
      | none => []) = 0 := by
    cases hw : self.window_handle_ with
    | none => rfl
    | some h =>
        have := registrations_passive _ (dispatch_base_passive h closing true
          { self with controller_ := none })
        simp only [registrations] at this ⊢
        rw [List.countP_cons_of_neg]
        · simpa [hw] using this
        · simp [Effect.isRegisterClass]
  have h3 : registrations (if g.g_active_window_count = 0 then [Effect.PostQuitMessage 0]
      else []) = 0 := by
    split <;> rfl
  rw [h1, h2, h3]

theorem registrations_GetWindowClass (g : Globals) :
    registrations (GetWindowClass g).2.2 = if g.g_window_class_registerd then 0 else 1 := by
  unfold GetWindowClass
  split <;> simp_all [registrations, Effect.isRegisterClass]

theorem registrations_Create (g : Globals) (self : Win32Window) (title : String)
    (origin : Point) (size : Size) (env : CreateEnv) :
    registrations (Create base g self title origin size env).effects =
      if g.g_window_class_registerd then 0 else 1 := by
  obtain ⟨sent, hsent, heff⟩ := Create_base_effects g self title origin size env
  rw [heff]
  simp only [registrations_append, registrations_Destroy, registrations_GetWindowClass]
  have h1 : registrations (Effect.CreateWindow kWindowClassName title origin size env.dpi
      (returned env.creation) :: sent) = 0 := by
    have := registrations_passive sent hsent
    simp only [registrations] at this ⊢
    rw [List.countP_cons_of_neg]
    · exact this
    · simp [Effect.isRegisterClass]
  have h2 : registrations (match returned env.creation with
      | none => []
      | some w =>
          Effect.UpdateTheme w ::
          Effect.EnableFullDpiSupport (some w) ::
          Effect.FlutterDesktopViewControllerCreate (some w) env.controller ::
          (match env.controller with
            | none => []
            | some c => [Effect.RegisterPlugins c, Effect.SetChildContent c])) = 0 := by
    cases returned env.creation with
    | none => rfl
    | some w => cases env.controller <;> rfl
  rw [h1, h2]
  simp

theorem step_registered (s : Process) (op : Op) (t : Process) (h : step s op = some t) :
    t.globals.g_window_class_registerd = (s.globals.g_window_class_registerd || op.isCreate) ∧
    registrations t.trace = registrations s.trace +
      (if s.globals.g_window_class_registerd then 0 else if op.isCreate then 1 else 0) := by
  cases op with
  | copyConstruct a other =>
      simp only [step] at h
      split at h
      · simp only [Option.some.injEq] at h
        subst h
        simp [copyConstruct, Op.isCreate]
      · simp at h
  | construct a =>
      simp only [step] at h
      split at h
      · simp at h
      · simp only [Option.some.injEq] at h
        subst h
        simp [construct, Op.isCreate]
  | Create a title origin size env =>
      simp only [step] at h
      split at h
      · simp only [Option.some.injEq] at h
        subst h
        simp only [Create_globals, GetWindowClass_flag, registrations_append,
          registrations_Create, Op.isCreate]
        simp
      · simp at h
  | Show a shown =>
      simp only [step] at h
      split at h
      · simp only [Option.some.injEq] at h
        subst h
        simp [Show, Op.isCreate, registrations_append, registrations, Effect.isRegisterClass]
      · simp at h
  | SetQuitOnClose a q =>
      simp only [step] at h
      split at h
      · simp only [Option.some.injEq] at h
        subst h
        simp [Op.isCreate]
      · simp at h
  | Destroy a closing =>
      simp only [step] at h
      split at h
      · simp only [Option.some.injEq] at h
        subst h
        simp [Destroy_globals, Op.isCreate, registrations_append, registrations_Destroy]
      · simp at h
  | destruct a closing =>
      simp only [step] at h
      split at h
      · simp only [Option.some.injEq] at h
        subst h
        simp [destruct, Destroy_globals, Op.isCreate, registrations_append,
          registrations_Destroy]
      · simp at h

theorem tally_once (a b c : Bool) (n : Nat) :
    (a || b || c) = (a || (b || c)) ∧
    ((n + if a = true then 0 else if b = true then 1 else 0) +
        if (a || b) = true then 0 else if c = true then 1 else 0) =
      n + if a = true then 0 else if (b || c) = true then 1 else 0 := by
  cases a <;> cases b <;> cases c <;> simp

theorem run_registered (ops : List Op) :
    ∀ (s t : Process), run s ops = some t →
      t.globals.g_window_class_registerd =
        (s.globals.g_window_class_registerd || ops.any Op.isCreate) ∧
      registrations t.trace = registrations s.trace +
        (if s.globals.g_window_class_registerd then 0
         else if ops.any Op.isCreate then 1 else 0) := by
  induction ops with
  | nil =>
      intro s t h
      simp [run] at h
      subst h
      simp
  | cons op ops ih =>
      intro s t h
      cases hso : step s op with
      | none => simp [run, hso] at h
      | some u =>
          simp [run, hso] at h
          obtain ⟨hf, hr⟩ := step_registered s op u hso
          obtain ⟨hf2, hr2⟩ := ih u t h
          rw [hf2, hr2, hf, hr]
          simp only [List.any_cons]
          exact tally_once _ _ _ _

/-- C8: from an unset registration flag, in every state reached in the course
of any sequence of operations (the state after any initial part `xs`), the
number of `RegisterClass` calls made so far is one if `xs` holds a `Create` call
and zero otherwise: the first `Create` registers the class and nothing
registers it again.  The flag tells whether a `Create` has run, and
`GetWindowClass` returns the same class name in every state. -/
theorem window_class_registered_once (xs ys : List Op) (s : Process)
    (h : run start (xs ++ ys) = some s) :
    ∃ t, run start xs = some t ∧
      registrations t.trace = (if xs.any Op.isCreate then 1 else 0) ∧
      registrations t.trace ≤ 1 ∧
      t.globals.g_window_class_registerd = xs.any Op.isCreate ∧
      ∀ g : Globals, (GetWindowClass g).1 = kWindowClassName := by
  obtain ⟨t, ht, _⟩ := run_split start s xs ys h
  obtain ⟨hf, hr⟩ := run_registered xs start t ht
  have hr1 : registrations t.trace = (if xs.any Op.isCreate then 1 else 0) := by
    rw [hr]
    simp [start, registrations]
  refine ⟨t, ht, hr1, ?_, ?_, GetWindowClass_name⟩
  · rw [hr1]
    split <;> omega
  · rw [hf]
    simp [start]

/-- Witness for C8: the sample run, which holds one `Create`, followed by a
second `Create`. -/
theorem window_class_registered_once_witness :
    run start (sampleLifecycle ++ [Op.Create 0 "again" ⟨20, 20⟩ ⟨640, 480⟩ envOk]) =
      some (after (sampleLifecycle ++ [Op.Create 0 "again" ⟨20, 20⟩ ⟨640, 480⟩ envOk])) ∧
    ∃ t, run start sampleLifecycle = some t ∧
      registrations t.trace = (if sampleLifecycle.any Op.isCreate then 1 else 0) ∧
      registrations t.trace ≤ 1 ∧
      t.globals.g_window_class_registerd = sampleLifecycle.any Op.isCreate ∧
      ∀ g : Globals, (GetWindowClass g).1 = kWindowClassName :=
  ⟨rfl, window_class_registered_once sampleLifecycle
    [Op.Create 0 "again" ⟨20, 20⟩ ⟨640, 480⟩ envOk]
    (after (sampleLifecycle ++ [Op.Create 0 "again" ⟨20, 20⟩ ⟨640, 480⟩ envOk])) rfl⟩

/-! ## C2: when `Destroy` posts the quit message -/

theorem quit_not_passive (xs : List Effect) (h : ∀ e ∈ xs, e.passive = true) :
    Effect.PostQuitMessage 0 ∉ xs := by
  intro hmem
  have := h _ hmem
  simp [Effect.passive] at this

theorem Destroy_base_quit_iff (g : Globals) (self : Win32Window) (closing : List Delivery) :
    Effect.PostQuitMessage 0 ∈ (Destroy base g self closing).effects ↔
      g.g_active_window_count = 0 := by
  rw [Destroy_base_effects]
  have h1 : Effect.PostQuitMessage 0 ∉ (match self.controller_ with
      | some c => [Effect.FlutterDesktopViewControllerDestroy c]
      | none => []) := by
    cases self.controller_ <;> simp
  have h2 : Effect.PostQuitMessage 0 ∉ (match self.window_handle_ with
      | some h =>
          Effect.DestroyWindow h ::
            (dispatch base h true { self with controller_ := none } closing).2.2
      | none => []) := by
    cases hw : self.window_handle_ with
    | none => simp
    | some h =>
        have := quit_not_passive _ (dispatch_base_passive h closing true
          { self with controller_ := none })
        simpa [hw] using this
  simp only [List.mem_append, h1, h2, false_or]
  split <;> simp_all

/-- C2, as the code has it: a run of `Destroy` posts the quit message exactly
when the active-window counter is zero as it runs; for the `Destroy` that the
destructor runs, which decrements the counter first, that is exactly when the
counter was one.  In every state reached by a sequence of operations without
copy construction, where the counter is the number of live instances,
`Destroy` called directly on a live instance therefore posts no quit message,
and `Destroy` run by the destructor posts it exactly when no other instance is
alive. -/
theorem quit_posted_iff_counter_zero (ops : List Op) (s : Process) (a : Nat)
    (closing : List Delivery) (hcopy : ∀ op ∈ ops, op.isCopy = false)
    (h : run start ops = some s) (ha : a ∈ s.alive) :
    (∀ (g : Globals) (self : Win32Window),
      Effect.PostQuitMessage 0 ∈ (Destroy base g self closing).effects ↔
        g.g_active_window_count = 0) ∧
    (∀ (g : Globals) (self : Win32Window),
      Effect.PostQuitMessage 0 ∈ (destruct g self closing).effects ↔
        g.g_active_window_count = 1) ∧
    Effect.PostQuitMessage 0 ∉ (Destroy base s.globals (s.obj a) closing).effects ∧
    (Effect.PostQuitMessage 0 ∈ (destruct s.globals (s.obj a) closing).effects ↔
      s.alive.erase a = []) := by
  obtain ⟨hc, _⟩ := run_counted ops s hcopy h
  have hpos : 0 < s.alive.length := List.length_pos_of_mem ha
  refine ⟨fun g self => Destroy_base_quit_iff g self closing, ?_, ?_, ?_⟩
  · intro g self
    unfold destruct
    rw [Destroy_base_quit_iff]
    constructor <;> intro h1 <;> simp only at h1 ⊢ <;> omega
  · rw [Destroy_base_quit_iff, hc]
    omega
  · unfold destruct
    rw [Destroy_base_quit_iff, ← List.length_eq_zero, List.length_erase_of_mem ha]
    simp only [hc]
    omega

/-- Witness for C2 as amended: with two default-constructed live instances,
neither a direct `Destroy` nor the destructor of the first posts the quit
message. -/
theorem quit_posted_iff_counter_zero_witness :
    (∀ op ∈ twoConstructed, op.isCopy = false) ∧
    run start twoConstructed = some (after twoConstructed) ∧
    0 ∈ (after twoConstructed).alive ∧
    ((∀ (g : Globals) (self : Win32Window),
      Effect.PostQuitMessage 0 ∈ (Destroy base g self []).effects ↔
        g.g_active_window_count = 0) ∧
     (∀ (g : Globals) (self : Win32Window),
      Effect.PostQuitMessage 0 ∈ (destruct g self []).effects ↔
        g.g_active_window_count = 1) ∧
     Effect.PostQuitMessage 0 ∉
       (Destroy base (after twoConstructed).globals ((after twoConstructed).obj 0) []).effects ∧
     (Effect.PostQuitMessage 0 ∈
       (destruct (after twoConstructed).globals ((after twoConstructed).obj 0) []).effects ↔
       (after twoConstructed).alive.erase 0 = [])) :=
  ⟨by decide, rfl, by decide,
   quit_posted_iff_counter_zero twoConstructed (after twoConstructed) 0 []
     (by decide) rfl (by decide)⟩

/-- C2 fails as stated: one instance is constructed at address 0 and `Destroy`
is called on it directly.  No other instance is alive, yet the counter is one
and the call makes no call at all, so it posts no quit message: the
equivalence of the claim is false in this state. -/
theorem direct_Destroy_of_last_instance_posts_no_quit :
    run start [Op.construct 0] = some (after [Op.construct 0]) ∧
    (after [Op.construct 0]).alive = [0] ∧
    (after [Op.construct 0]).globals.g_active_window_count = 1 ∧
    (Destroy base (after [Op.construct 0]).globals ((after [Op.construct 0]).obj 0)
      []).effects = [] ∧
    ¬ (Effect.PostQuitMessage 0 ∈
        (Destroy base (after [Op.construct 0]).globals ((after [Op.construct 0]).obj 0)
          []).effects ↔
       (after [Op.construct 0]).alive.erase 0 = []) := by
  refine ⟨rfl, by decide, by decide, by decide, ?_⟩
  decide

/-! ## C3: when `Create` fails -/

/-- C3: for every title, origin, size, prior state and answer of the
environment, and whatever overrides the virtual functions, `Create` returns
false exactly when `CreateWindow` returns the null handle or the `OnCreate`
extension point, run on the instance as window creation leaves it, returns
false, and returns true otherwise.  The base `OnCreate` returns false exactly
when `FlutterDesktopViewControllerCreate` returns null, so that `Create` of the
base class returns false exactly when one of the two creations returns null. -/
theorem Create_fails_iff (V : Hooks) (g : Globals) (self : Win32Window) (title : String)
    (origin : Point) (size : Size) (env : CreateEnv) :
    ((Create V g self title origin size env).ret = false ↔
      (returned env.creation = none ∨
       (V.OnCreate
          (CreateWindow V (Destroy V g self env.closing).self kWindowClassName title origin
            size env).2.1 env.controller).1 = false)) ∧
    ((Create V g self title origin size env).ret = true ↔
      (returned env.creation ≠ none ∧
       (V.OnCreate
          (CreateWindow V (Destroy V g self env.closing).self kWindowClassName title origin
            size env).2.1 env.controller).1 = true)) ∧
    (∀ (w : Win32Window) (answer : FlutterDesktopWindowControllerRef),
      (OnCreate w answer).1 = false ↔ answer = none) ∧
    ((Create base g self title origin size env).ret = false ↔
      (returned env.creation = none ∨ env.controller = none)) := by
  have key : (Create V g self title origin size env).ret =
      ((returned env.creation).isSome &&
        (V.OnCreate
          (CreateWindow V (Destroy V g self env.closing).self kWindowClassName title origin
            size env).2.1 env.controller).1) := by
    unfold Create
    simp only [CreateWindow_ret, Destroy_globals, GetWindowClass_name]
    split
    · next h => simp [h]
    · next w h => simp [h]
  refine ⟨?_, ?_, ?_, ?_⟩
  · rw [key]
    cases returned env.creation <;> simp
  · rw [key]
    cases returned env.creation <;> simp
  · intro w answer
    rw [OnCreate_ret]
    cases answer <;> simp
  · rw [Create_base_ret]
    cases returned env.creation <;> cases env.controller <;> simp

/-! ## C5: the window handle after `Create` and after `Destroy` -/

theorem Destroy_handle (V : Hooks) (g : Globals) (self : Win32Window)
    (closing : List Delivery) : (Destroy V g self closing).self.window_handle_ = none := by
  unfold Destroy
  simp only
  split
  · rfl
  · next h => exact h

theorem returned_eq_some (creation : Option WindowCreation) (w : Nat)
    (h : returned creation = some w) :
    ∃ c, creation = some c ∧ c.completes = true ∧ c.window = w := by
  cases creation with
  | none => simp [returned] at h
  | some c =>
      simp only [returned] at h
      split at h
      · next hc => exact ⟨c, rfl, hc, by simpa using h⟩
      · simp at h

/-- C5: for every prior state, a `Create` of the base class that returns true
leaves the window handle equal to the handle of the window just created, the
one `CreateWindow` returned and `WndProc` stored on `WM_NCCREATE`, hence not
null; and `Destroy`, under any overrides and also when run by the destructor,
leaves the window handle null. -/
theorem handle_after_Create_and_Destroy (g : Globals) (self : Win32Window) (title : String)
    (origin : Point) (size : Size) (env : CreateEnv) (closing : List Delivery) :
    ((Create base g self title origin size env).ret = true →
      ∃ c, env.creation = some c ∧ returned env.creation = some c.window ∧
        (Create base g self title origin size env).self.window_handle_ = some c.window ∧
        (Create base g self title origin size env).self.window_handle_ ≠ none) ∧
    (∀ (V : Hooks) (bound : Bool) (w : Win32Window) (window : Nat) (d : Delivery),
      d.message = WM_NCCREATE →
        (WndProc V bound w window d).2.2.1.window_handle_ = some window) ∧
    (∀ V : Hooks, (Destroy V g self closing).self.window_handle_ = none) ∧
    (destruct g self closing).self.window_handle_ = none := by
  refine ⟨?_, ?_, fun V => Destroy_handle V g self closing, Destroy_handle _ _ _ _⟩
  · intro h
    rw [Create_base_ret] at h
    simp only [Bool.and_eq_true, Option.isSome_iff_exists] at h
    obtain ⟨⟨w, hw⟩, _⟩ := h
    obtain ⟨c, hc, _, hcw⟩ := returned_eq_some env.creation w hw
    refine ⟨c, hc, by rw [hw, hcw], ?_, ?_⟩ <;> simp [Create_base_self, hc]
  · intro V bound w window d hd
    simp [WndProc, hd]

/-- Witness for C5: a fresh instance, a window creation that completes and an
engine that returns a controller. -/
theorem handle_after_Create_and_Destroy_witness :
    (Create base {} {} "main" ⟨10, 10⟩ ⟨1280, 720⟩ envOk).ret = true ∧
    ∃ c, envOk.creation = some c ∧ returned envOk.creation = some c.window ∧
      (Create base {} {} "main" ⟨10, 10⟩ ⟨1280, 720⟩ envOk).self.window_handle_ =
        some c.window ∧
      (Create base {} {} "main" ⟨10, 10⟩ ⟨1280, 720⟩ envOk).self.window_handle_ ≠ none :=
  ⟨by decide,
   (handle_after_Create_and_Destroy {} {} "main" ⟨10, 10⟩ ⟨1280, 720⟩ envOk []).1
     (by decide)⟩

/-! ## C9: `MessageHandler` -/

/-- C9: for every message the first call `MessageHandler` makes is the engine's
top-level window-proc hook, for that message.  If the hook reports the message
handled, the result is 0 and that call is the only one: no font reload and no
`DefWindowProc`.  Otherwise the result is the answer of `DefWindowProc`, which
is called last and for the same message, and between the two the engine is
asked to reload the system fonts exactly when the message is `WM_FONTCHANGE`.
No member variable changes. -/
theorem MessageHandler_engine_first (self : Win32Window) (hwnd : HWND)
    (message wparam lparam : Nat) (engineHandled : Bool) (osDefault : Int) :
    (MessageHandler self hwnd message wparam lparam engineHandled osDefault).2.2.head? =
      some (Effect.FlutterDesktopViewControllerHandleTopLevelWindowProc
        self.controller_ hwnd message wparam lparam) ∧
    (MessageHandler self hwnd message wparam lparam engineHandled osDefault).2.1 = self ∧
    (MessageHandler self hwnd message wparam lparam true osDefault).1 = 0 ∧
    (MessageHandler self hwnd message wparam lparam true osDefault).2.2 =
      [Effect.FlutterDesktopViewControllerHandleTopLevelWindowProc
        self.controller_ hwnd message wparam lparam] ∧
    (MessageHandler self hwnd message wparam lparam false osDefault).1 = osDefault ∧
    (MessageHandler self hwnd message wparam lparam false osDefault).2.2 =
      Effect.FlutterDesktopViewControllerHandleTopLevelWindowProc
        self.controller_ hwnd message wparam lparam ::
      (if message = WM_FONTCHANGE then
        [Effect.FlutterDesktopEngineReloadSystemFonts self.controller_] else []) ++
      [Effect.DefWindowProc hwnd message wparam lparam] ∧
    (Effect.FlutterDesktopEngineReloadSystemFonts self.controller_ ∈
        (MessageHandler self hwnd message wparam lparam engineHandled osDefault).2.2 ↔
      (engineHandled = false ∧ message = WM_FONTCHANGE)) ∧
    (Effect.DefWindowProc hwnd message wparam lparam ∈
        (MessageHandler self hwnd message wparam lparam engineHandled osDefault).2.2 ↔
      engineHandled = false) := by
  refine ⟨?_, ?_, rfl, rfl, rfl, rfl, ?_, ?_⟩
  · cases engineHandled <;> simp [MessageHandler]
  · cases engineHandled <;> simp [MessageHandler]
  · cases engineHandled <;> by_cases hm : message = WM_FONTCHANGE <;> simp [MessageHandler, hm]
  · cases engineHandled <;> by_cases hm : message = WM_FONTCHANGE <;> simp [MessageHandler, hm]

/-! ## C10: `Create` is not rolled back when `OnCreate` fails -/

theorem Destroy_base_destroys (g : Globals) (self : Win32Window) (closing : List Delivery)
    (w : Nat) (hw : self.window_handle_ = some w) :
    Effect.DestroyWindow w ∈ (Destroy base g self closing).effects := by
  rw [Destroy_base_effects]
  simp [hw]

theorem Create_base_destroys (g : Globals) (self : Win32Window) (title : String)
    (origin : Point) (size : Size) (env : CreateEnv) (w : Nat)
    (hw : self.window_handle_ = some w) :
    Effect.DestroyWindow w ∈ (Create base g self title origin size env).effects := by
  obtain ⟨sent, _, heff⟩ := Create_base_effects g self title origin size env
  rw [heff]
  have := Destroy_base_destroys g self env.closing w hw
  simp only [List.mem_append]
  exact Or.inl (Or.inl (Or.inl this))

/-- C10: when `CreateWindow` returns the handle of a new window and the engine
returns no controller, `Create` of the base class returns false, leaves the
window handle equal to the new handle and the controller null, and makes no
`DestroyWindow` call from `CreateWindow` on: its trace is that of the leading
`Destroy` and of `GetWindowClass`, then `CreateWindow` and calls none of which
is `DestroyWindow`.  The new window is destroyed by whichever comes next of
`Destroy`, `Create` and the destructor; `Show` and `SetQuitOnClose` do not
destroy it. -/
theorem Create_not_rolled_back (g : Globals) (self : Win32Window) (title : String)
    (origin : Point) (size : Size) (env : CreateEnv) (w : Nat)
    (hwin : returned env.creation = some w) (hctl : env.controller = none) :
    (Create base g self title origin size env).ret = false ∧
    (Create base g self title origin size env).self.window_handle_ = some w ∧
    (Create base g self title origin size env).self.controller_ = none ∧
    (∃ rest : List Effect,
      (Create base g self title origin size env).effects =
        (Destroy base g self env.closing).effects ++ (GetWindowClass g).2.2 ++
        Effect.CreateWindow kWindowClassName title origin size env.dpi (some w) :: rest ∧
      ∀ e ∈ rest, e.isDestroyWindow = false) ∧
    (∀ (g2 : Globals) (closing : List Delivery),
      Effect.DestroyWindow w ∈
        (Destroy base g2 (Create base g self title origin size env).self closing).effects) ∧
    (∀ (g2 : Globals) (title2 : String) (origin2 : Point) (size2 : Size) (env2 : CreateEnv),
      Effect.DestroyWindow w ∈
        (Create base g2 (Create base g self title origin size env).self title2 origin2 size2
          env2).effects) ∧
    (∀ (g2 : Globals) (closing : List Delivery),
      Effect.DestroyWindow w ∈
        (destruct g2 (Create base g self title origin size env).self closing).effects) ∧
    (∀ shown : Bool,
      Effect.DestroyWindow w ∉
        (Show (Create base g self title origin size env).self shown).2) ∧
    (∀ q : Bool,
      (SetQuitOnClose (Create base g self title origin size env).self q).window_handle_ =
        some w) := by
  obtain ⟨c, hc, _, hcw⟩ := returned_eq_some env.creation w hwin
  have hh : (Create base g self title origin size env).self.window_handle_ = some w := by
    simp [Create_base_self, hc, hcw]
  refine ⟨?_, hh, ?_, ?_, ?_, ?_, ?_, ?_, ?_⟩
  · simp [Create_base_ret, hctl]
  · simp [Create_base_self, hctl]
  · obtain ⟨sent, hsent, heff⟩ := Create_base_effects g self title origin size env
    refine ⟨sent ++ [Effect.UpdateTheme w, Effect.EnableFullDpiSupport (some w),
      Effect.FlutterDesktopViewControllerCreate (some w) none], ?_, ?_⟩
    · rw [heff, hwin, hctl]
      simp
    · intro e he
      simp only [List.mem_append, List.mem_cons, List.mem_singleton, List.not_mem_nil,
        or_false] at he
      rcases he with he | rfl | rfl | rfl
      · have := hsent e he
        cases e <;> simp_all [Effect.passive, Effect.isDestroyWindow]
      · rfl
      · rfl
      · rfl
  · intro g2 closing
    exact Destroy_base_destroys _ _ _ w hh
  · intro g2 title2 origin2 size2 env2
    exact Create_base_destroys _ _ _ _ _ _ w hh
  · intro g2 closing
    exact Destroy_base_destroys _ _ _ w hh
  · intro shown
    simp [Show]
  · intro q
    simpa [SetQuitOnClose] using hh

/-- Witness for C10: on a fresh instance the window with handle 7 is created and
the engine returns no controller. -/
theorem Create_not_rolled_back_witness :
    returned envNoController.creation = some 7 ∧ envNoController.controller = none ∧
    (Create base {} {} "main" ⟨10, 10⟩ ⟨1280, 720⟩ envNoController).ret = false ∧
    (Create base {} {} "main" ⟨10, 10⟩ ⟨1280, 720⟩ envNoController).self.window_handle_ =
      some 7 ∧
    (Create base {} {} "main" ⟨10, 10⟩ ⟨1280, 720⟩ envNoController).self.controller_ = none :=
  ⟨by decide, by decide,
   (Create_not_rolled_back {} {} "main" ⟨10, 10⟩ ⟨1280, 720⟩ envNoController 7
      (by decide) (by decide)).1,
   (Create_not_rolled_back {} {} "main" ⟨10, 10⟩ ⟨1280, 720⟩ envNoController 7
      (by decide) (by decide)).2.1,
   (Create_not_rolled_back {} {} "main" ⟨10, 10⟩ ⟨1280, 720⟩ envNoController 7
      (by decide) (by decide)).2.2.1⟩

/-! ## C4: the controller lives within the lifetime of the window -/

theorem split_after {α : Type} (L tail pre post : List α) (x : α) (hx : x ∉ L)
    (h : L ++ tail = pre ++ x :: post) : ∃ mid, pre = L ++ mid ∧ tail = mid ++ x :: post := by
  induction L generalizing pre with
  | nil => exact ⟨pre, rfl, by simpa using h⟩
  | cons a L ih =>
      cases pre with
      | nil =>
          simp only [List.cons_append, List.nil_append, List.cons.injEq] at h
          exact absurd (h.1 ▸ List.mem_cons_self _ _) hx
      | cons b pre =>
          simp only [List.cons_append, List.cons.injEq] at h
          obtain ⟨mid, h1, h2⟩ := ih pre (fun hm => hx (List.mem_cons_of_mem _ hm)) h.2
          exact ⟨mid, by rw [h.1, h1]; rfl, h2⟩

theorem step_nested (s : Process) (op : Op) (t : Process)
    (hs : ∀ a, (s.obj a).controller_ ≠ none → (s.obj a).window_handle_ ≠ none)
    (h : step s op = some t) :
    ∀ a, (t.obj a).controller_ ≠ none → (t.obj a).window_handle_ ≠ none := by
  have upd : ∀ (b : Nat) (w : Win32Window),
      (w.controller_ ≠ none → w.window_handle_ ≠ none) →
      ∀ a, (Function.update s.obj b w a).controller_ ≠ none →
        (Function.update s.obj b w a).window_handle_ ≠ none := by
    intro b w hw a
    by_cases hab : a = b
    · subst hab
      simpa using hw
    · simpa [Function.update_noteq hab] using hs a
  cases op with
  | copyConstruct a other =>
      simp only [step] at h
      split at h
      · simp only [Option.some.injEq] at h
        subst h
        exact upd a _ (by simpa [copyConstruct] using hs other)
      · simp at h
  | construct a =>
      simp only [step] at h
      split at h
      · simp at h
      · simp only [Option.some.injEq] at h
        subst h
        exact upd a _ (by simp [construct])
  | Create a title origin size env =>
      simp only [step] at h
      split at h
      · simp only [Option.some.injEq] at h
        subst h
        refine upd a _ ?_
        rw [Create_base_self]
        intro hc
        simp only [ne_eq, ite_eq_right_iff, Classical.not_imp] at hc
        obtain ⟨hr, _⟩ := hc
        cases hcr : env.creation with
        | none => simp [hcr, returned] at hr
        | some c => simp
      · simp at h
  | Show a shown =>
      simp only [step] at h
      split at h
      · simp only [Option.some.injEq] at h
        subst h
        exact hs
      · simp at h
  | SetQuitOnClose a q =>
      simp only [step] at h
      split at h
      · simp only [Option.some.injEq] at h
        subst h
        exact upd a _ (by simpa [SetQuitOnClose] using hs a)
      · simp at h
  | Destroy a closing =>
      simp only [step] at h
      split at h
      · simp only [Option.some.injEq] at h
        subst h
        exact upd a _ (by simp [Destroy_base_self])
      · simp at h
  | destruct a closing =>
      simp only [step] at h
      split at h
      · simp only [Option.some.injEq] at h
        subst h
        exact upd a _ (by simp [destruct, Destroy_base_self])
      · simp at h

theorem Destroy_base_no_ControllerCreate (g : Globals) (self : Win32Window)
    (closing : List Delivery) :
    ∀ e ∈ (Destroy base g self closing).effects, e.isControllerCreate = false := by
  intro e he
  rw [Destroy_base_effects] at he
  simp only [List.mem_append] at he
  rcases he with (he | he) | he
  · cases hc : self.controller_ with
    | none => simp [hc] at he
    | some c =>
        simp [hc] at he
        subst he
        rfl
  · cases hw : self.window_handle_ with
    | none => simp [hw] at he
    | some h =>
        simp only [hw, List.mem_cons] at he
        rcases he with rfl | he
        · rfl
        · have := dispatch_base_passive h closing true _ e he
          cases e <;> simp_all [Effect.passive, Effect.isControllerCreate]
  · split at he
    · simp at he
      subst he
      rfl
    · simp at he

theorem Create_base_controller_after_window (g : Globals) (self : Win32Window)
    (title : String) (origin : Point) (size : Size) (env : CreateEnv)
    (pre post : List Effect) (parent : HWND) (res : FlutterDesktopWindowControllerRef)
    (h : (Create base g self title origin size env).effects =
      pre ++ Effect.FlutterDesktopViewControllerCreate parent res :: post) :
    ∃ w, parent = some w ∧ returned env.creation = some w ∧
      Effect.CreateWindow kWindowClassName title origin size env.dpi (some w) ∈ pre := by
  obtain ⟨sent, hsent, heff⟩ := Create_base_effects g self title origin size env
  rw [heff] at h
  have hL : Effect.FlutterDesktopViewControllerCreate parent res ∉
      (Destroy base g self env.closing).effects ++ (GetWindowClass g).2.2 ++
        Effect.CreateWindow kWindowClassName title origin size env.dpi
          (returned env.creation) :: sent := by
    intro hm
    simp only [List.mem_append, List.mem_cons] at hm
    rcases hm with (hm | hm) | hm | hm
    · have := Destroy_base_no_ControllerCreate g self env.closing _ hm
      simp [Effect.isControllerCreate] at this
    · unfold GetWindowClass at hm
      split at hm <;> simp at hm
    · simp at hm
    · have := hsent _ hm
      simp [Effect.passive] at this
  obtain ⟨mid, hpre, htail⟩ := split_after _ _ pre post _ hL h
  cases hr : returned env.creation with
  | none =>
      rw [hr] at htail
      simp at htail
  | some w =>
      rw [hr] at htail
      dsimp only at htail
      have hmem : Effect.FlutterDesktopViewControllerCreate parent res ∈
          (Effect.UpdateTheme w :: Effect.EnableFullDpiSupport (some w) ::
            Effect.FlutterDesktopViewControllerCreate (some w) env.controller ::
            (match env.controller with
              | none => []
              | some c => [Effect.RegisterPlugins c, Effect.SetChildContent c])) := by
        rw [htail]
        simp
      have hp : parent = some w := by
        cases hc : env.controller <;> simp [hc] at hmem <;> exact hmem.1
      refine ⟨w, hp, rfl, ?_⟩
      rw [hpre, hr]
      simp

theorem Destroy_base_controller_before_window (g : Globals) (self : Win32Window)
    (closing : List Delivery) (pre post : List Effect) (w : Nat)
    (h : (Destroy base g self closing).effects = pre ++ Effect.DestroyWindow w :: post) :
    self.window_handle_ = some w ∧
    ∀ c, self.controller_ = some c → Effect.FlutterDesktopViewControllerDestroy c ∈ pre := by
  rw [Destroy_base_effects, List.append_assoc] at h
  have hL : Effect.DestroyWindow w ∉ (match self.controller_ with
      | some c => [Effect.FlutterDesktopViewControllerDestroy c]
      | none => []) := by
    cases self.controller_ <;> simp
  obtain ⟨mid, hpre, htail⟩ := split_after _ _ pre post _ hL h
  constructor
  · have hmem : Effect.DestroyWindow w ∈ (match self.window_handle_ with
        | some h =>
            Effect.DestroyWindow h ::
              (dispatch base h true { self with controller_ := none } closing).2.2
        | none => []) ++
        (if g.g_active_window_count = 0 then [Effect.PostQuitMessage 0] else []) := by
      rw [htail]
      simp
    simp only [List.mem_append] at hmem
    rcases hmem with hmem | hmem
    · cases hw : self.window_handle_ with
      | none => simp [hw] at hmem
      | some h0 =>
          simp only [hw, List.mem_cons] at hmem
          rcases hmem with hmem | hmem
          · simp at hmem
            rw [hmem]
          · have := dispatch_base_passive h0 closing true _ _ hmem
            simp [Effect.passive] at this
    · split at hmem <;> simp at hmem
  · intro c hc
    rw [hpre, hc]
    simp

theorem Create_base_destroys_only_first (g : Globals) (self : Win32Window)
    (title : String) (origin : Point) (size : Size) (env : CreateEnv) :
    ∃ rest : List Effect,
      (Create base g self title origin size env).effects =
        (Destroy base g self env.closing).effects ++ rest ∧
      ∀ e ∈ rest, e.isDestroyWindow = false := by
  obtain ⟨sent, hsent, heff⟩ := Create_base_effects g self title origin size env
  refine ⟨_, by rw [heff, List.append_assoc, List.append_assoc], ?_⟩
  intro e he
  simp only [List.mem_append, List.mem_cons] at he
  rcases he with he | (he | he) | he
  · unfold GetWindowClass at he
    split at he
    · simp at he
    · simp at he
      subst he
      rfl
  · subst he
    rfl
  · have := hsent e he
    cases e <;> simp_all [Effect.passive, Effect.isDestroyWindow]
  · cases hr : returned env.creation with
    | none => simp [hr] at he
    | some w =>
        cases hc : env.controller <;> simp [hr, hc] at he <;>
          rcases he with rfl | rfl | rfl | rfl | rfl <;> rfl

/-- C4: in the trace of every `Create`, a controller creation comes after the
`CreateWindow` call of that `Create`, which returned the non-null handle the
controller is created for; `DestroyWindow` occurs in a `Create` only inside its
leading `Destroy`; and in the trace of every `Destroy`, a `DestroyWindow` call
is for the window the instance holds and comes after the destruction of the
controller the instance holds, if it holds one.  Hence in every state reached
in the course of any sequence of operations (the state after any initial part
`xs`), an instance with a non-null controller has a non-null window handle. -/
theorem controller_within_window_lifetime (xs ys : List Op) (s : Process)
    (h : run start (xs ++ ys) = some s) :
    (∃ t, run start xs = some t ∧
      ∀ a, (t.obj a).controller_ ≠ none → (t.obj a).window_handle_ ≠ none) ∧
    (∀ (g : Globals) (self : Win32Window) (title : String) (origin : Point) (size : Size)
      (env : CreateEnv) (pre post : List Effect) (parent : HWND)
      (res : FlutterDesktopWindowControllerRef),
      (Create base g self title origin size env).effects =
        pre ++ Effect.FlutterDesktopViewControllerCreate parent res :: post →
      ∃ w, parent = some w ∧ returned env.creation = some w ∧
        Effect.CreateWindow kWindowClassName title origin size env.dpi (some w) ∈ pre) ∧
    (∀ (g : Globals) (self : Win32Window) (title : String) (origin : Point) (size : Size)
      (env : CreateEnv),
      ∃ rest : List Effect,
        (Create base g self title origin size env).effects =
          (Destroy base g self env.closing).effects ++ rest ∧
        ∀ e ∈ rest, e.isDestroyWindow = false) ∧
    (∀ (g : Globals) (self : Win32Window) (closing : List Delivery)
      (pre post : List Effect) (w : Nat),
      (Destroy base g self closing).effects = pre ++ Effect.DestroyWindow w :: post →
      self.window_handle_ = some w ∧
      ∀ c, self.controller_ = some c →
        Effect.FlutterDesktopViewControllerDestroy c ∈ pre) := by
  obtain ⟨t, ht, _⟩ := run_split start s xs ys h
  exact ⟨⟨t, ht, run_invariant
      (fun s => ∀ a, (s.obj a).controller_ ≠ none → (s.obj a).window_handle_ ≠ none)
      step_nested xs start t (by simp [start]) ht⟩,
    Create_base_controller_after_window,
    Create_base_destroys_only_first,
    Destroy_base_controller_before_window⟩

/-- Witness for C4: the sample run, after which the instance at address 0 holds
window 7 and controller 3, followed by its `Destroy`. -/
theorem controller_within_window_lifetime_witness :
    run start (sampleLifecycle ++ [Op.Destroy 0 []]) =
      some (after (sampleLifecycle ++ [Op.Destroy 0 []])) ∧
    ((after sampleLifecycle).obj 0).controller_ = some 3 ∧
    ((after sampleLifecycle).obj 0).window_handle_ = some 7 ∧
    ∃ t, run start sampleLifecycle = some t ∧
      ∀ a, (t.obj a).controller_ ≠ none → (t.obj a).window_handle_ ≠ none :=
  ⟨rfl, by decide, by decide,
   (controller_within_window_lifetime sampleLifecycle [Op.Destroy 0 []]
      (after (sampleLifecycle ++ [Op.Destroy 0 []])) rfl).1⟩

/-! ## C7: `Destroy` is idempotent -/

theorem Destroy_base_noop_effects (g : Globals) (self : Win32Window)
    (closing : List Delivery) (hg : g.g_active_window_count ≠ 0)
    (hw : self.window_handle_ = none) (hc : self.controller_ = none) :
    (Destroy base g self closing).effects = [] := by
  rw [Destroy_base_effects]
  simp [hw, hc, hg]

theorem Destroy_base_noop_self (g : Globals) (self : Win32Window)
    (closing : List Delivery) (hw : self.window_handle_ = none)
    (hc : self.controller_ = none) : (Destroy base g self closing).self = self := by
  rw [Destroy_base_self]
  apply Win32Window_eq <;> simp [hw, hc]

theorem step_Destroy_noop (s : Process) (a : Nat) (closing : List Delivery)
    (ha : a ∈ s.alive) (hg : s.globals.g_active_window_count ≠ 0)
    (hw : (s.obj a).window_handle_ = none) (hc : (s.obj a).controller_ = none) :
    step s (Op.Destroy a closing) = some s := by
  simp only [step, ha, if_true, Destroy_globals, Destroy_base_noop_effects _ _ _ hg hw hc,
    Destroy_base_noop_self _ _ _ hw hc, List.append_nil, Function.update_eq_self]

theorem Destroy_base_destroyed_effects (g : Globals) (self : Win32Window)
    (closing : List Delivery) (hw : self.window_handle_ = none)
    (hc : self.controller_ = none) :
    (Destroy base g self closing).effects =
      if g.g_active_window_count = 0 then [Effect.PostQuitMessage 0] else [] := by
  rw [Destroy_base_effects]
  simp [hw, hc]

/-- C7, as the code has it: `Destroy` on an instance whose window handle and
controller are null leaves the member variables and the file-scope variables
as they are and makes no call except `PostQuitMessage`, which it makes exactly
when the active-window counter is zero as it runs; a second `Destroy` right
after a first adds nothing but that same conditional quit message.  In every
state reached by a sequence of operations without copy construction, the
counter is not zero while an instance is alive, so `Destroy` called directly on
a live instance with null handle and controller leaves the whole process state
as it is, and a second direct `Destroy` right after a first leaves the state
and the trace as the first left them. -/
theorem Destroy_of_destroyed_instance (ops : List Op) (s : Process) (a : Nat)
    (closing closing2 : List Delivery) (hcopy : ∀ op ∈ ops, op.isCopy = false)
    (h : run start ops = some s) (ha : a ∈ s.alive) :
    (∀ (g : Globals) (self : Win32Window),
      self.window_handle_ = none → self.controller_ = none →
      (Destroy base g self closing).self = self ∧
      (Destroy base g self closing).globals = g ∧
      (Destroy base g self closing).effects =
        if g.g_active_window_count = 0 then [Effect.PostQuitMessage 0] else []) ∧
    (∀ (g : Globals) (self : Win32Window),
      (Destroy base (Destroy base g self closing).globals
        (Destroy base g self closing).self closing2).self =
          (Destroy base g self closing).self ∧
      (Destroy base (Destroy base g self closing).globals
        (Destroy base g self closing).self closing2).globals =
          (Destroy base g self closing).globals ∧
      (Destroy base (Destroy base g self closing).globals
        (Destroy base g self closing).self closing2).effects =
          if g.g_active_window_count = 0 then [Effect.PostQuitMessage 0] else []) ∧
    ((s.obj a).window_handle_ = none → (s.obj a).controller_ = none →
      (Destroy base s.globals (s.obj a) closing).effects = [] ∧
      step s (Op.Destroy a closing) = some s) ∧
    (step s (Op.Destroy a closing)).bind (fun t => step t (Op.Destroy a closing2)) =
      step s (Op.Destroy a closing) := by
  obtain ⟨hc, _⟩ := run_counted ops s hcopy h
  have hpos : 0 < s.alive.length := List.length_pos_of_mem ha
  have hg : s.globals.g_active_window_count ≠ 0 := by omega
  refine ⟨?_, ?_, ?_, ?_⟩
  · intro g self hw hctl
    exact ⟨Destroy_base_noop_self _ _ _ hw hctl, rfl,
      Destroy_base_destroyed_effects _ _ _ hw hctl⟩
  · intro g self
    have hw : (Destroy base g self closing).self.window_handle_ = none :=
      Destroy_handle _ _ _ _
    have hctl : (Destroy base g self closing).self.controller_ = none := by
      simp [Destroy_base_self]
    exact ⟨Destroy_base_noop_self _ _ _ hw hctl, rfl,
      Destroy_base_destroyed_effects _ _ _ hw hctl⟩
  · intro hw hctl
    exact ⟨Destroy_base_noop_effects _ _ _ hg hw hctl,
      step_Destroy_noop s a closing ha hg hw hctl⟩
  · have hstep : step s (Op.Destroy a closing) =
        some { s with globals := (Destroy base s.globals (s.obj a) closing).globals,
                      obj := Function.update s.obj a
                        (Destroy base s.globals (s.obj a) closing).self,
                      trace := s.trace ++ (Destroy base s.globals (s.obj a) closing).effects } := by
      simp [step, ha]
    rw [hstep]
    simp only [Option.some_bind]
    apply step_Destroy_noop
    · exact ha
    · simpa [Destroy_globals] using hg
    · simp [Destroy_handle]
    · simp [Destroy_base_self]

/-- Witness for C7 as amended: an instance whose window was created and then
destroyed with `Destroy`; a further direct `Destroy` changes nothing. -/
theorem Destroy_of_destroyed_instance_witness :
    (∀ op ∈ sampleDestroyed, op.isCopy = false) ∧
    run start sampleDestroyed = some (after sampleDestroyed) ∧
    0 ∈ (after sampleDestroyed).alive ∧
    ((after sampleDestroyed).obj 0).window_handle_ = none ∧
    ((after sampleDestroyed).obj 0).controller_ = none ∧
    step (after sampleDestroyed) (Op.Destroy 0 []) = some (after sampleDestroyed) ∧
    (step (after sampleDestroyed) (Op.Destroy 0 [])).bind
        (fun t => step t (Op.Destroy 0 [])) =
      step (after sampleDestroyed) (Op.Destroy 0 []) :=
  ⟨by decide, rfl, by decide, by decide, by decide,
   ((Destroy_of_destroyed_instance sampleDestroyed (after sampleDestroyed) 0 [] []
      (by decide) rfl (by decide)).2.2.1 (by decide) (by decide)).2,
   (Destroy_of_destroyed_instance sampleDestroyed (after sampleDestroyed) 0 [] []
      (by decide) rfl (by decide)).2.2.2⟩

/-- C7 fails as stated: an instance is constructed and `Destroy` is called on
it, so that its window handle and controller are null; the instance is then
destroyed.  The `Destroy` that the destructor runs finds the counter at zero
and posts the quit message, so it is not without effect, while it changes no
member variable. -/
theorem destructor_Destroy_of_destroyed_instance_posts_quit :
    run start sampleIdle = some (after sampleIdle) ∧
    (after sampleIdle).alive = [0] ∧
    ((after sampleIdle).obj 0).window_handle_ = none ∧
    ((after sampleIdle).obj 0).controller_ = none ∧
    (destruct (after sampleIdle).globals ((after sampleIdle).obj 0) []).effects =
      [Effect.PostQuitMessage 0] ∧
    (destruct (after sampleIdle).globals ((after sampleIdle).obj 0) []).self =
      (after sampleIdle).obj 0 ∧
    ¬ ((destruct (after sampleIdle).globals ((after sampleIdle).obj 0) []).effects = []) := by
  refine ⟨rfl, by decide, by decide, by decide, by decide, by decide, by decide⟩

/-! ## C6: a second `Create` destroys the first window -/

theorem liveAfter_append (L : List Nat) (xs ys : List Effect) :
    liveAfter L (xs ++ ys) = liveAfter (liveAfter L xs) ys := by
  simp [liveAfter, List.foldl_append]

theorem peakLive_append (xs ys : List Effect) :
    ∀ L : List Nat,
      peakLive L (xs ++ ys) = max (peakLive L xs) (peakLive (liveAfter L xs) ys) := by
  induction xs with
  | nil =>
      intro L
      cases ys with
      | nil => simp [peakLive, liveAfter]
      | cons y ys => simp [peakLive, liveAfter]
  | cons x xs ih =>
      intro L
      have h1 : peakLive L (x :: xs ++ ys) =
          max L.length (peakLive (liveStep L x) (xs ++ ys)) := rfl
      have h2 : peakLive L (x :: xs) = max L.length (peakLive (liveStep L x) xs) := rfl
      have h3 : liveAfter L (x :: xs) = liveAfter (liveStep L x) xs := rfl
      rw [h1, h2, h3, ih]
      omega

theorem liveStep_idle (L : List Nat) (e : Effect) (h1 : e.isCreateWindow = false)
    (h2 : e.isDestroyWindow = false) : liveStep L e = L := by
  cases e <;> simp_all [liveStep, Effect.isCreateWindow, Effect.isDestroyWindow]

theorem live_idle (xs : List Effect)
    (h : ∀ e ∈ xs, e.isCreateWindow = false ∧ e.isDestroyWindow = false) :
    ∀ L : List Nat, liveAfter L xs = L ∧ peakLive L xs = L.length := by
  induction xs with
  | nil => intro L; simp [liveAfter, peakLive]
  | cons x xs ih =>
      intro L
      have hx := h x (List.mem_cons_self _ _)
      have hxs := ih (fun e he => h e (List.mem_cons_of_mem _ he)) L
      simp only [liveAfter, List.foldl_cons, peakLive, liveStep_idle L x hx.1 hx.2]
      simp only [liveAfter] at hxs
      rw [hxs.1, hxs.2]
      simp

theorem passive_idle (xs : List Effect) (h : ∀ e ∈ xs, e.passive = true) :
    ∀ e ∈ xs, e.isCreateWindow = false ∧ e.isDestroyWindow = false := by
  intro e he
  have := h e he
  cases e <;> simp_all [Effect.passive, Effect.isCreateWindow, Effect.isDestroyWindow]

theorem live_cons_idle (L : List Nat) (x : Effect) (xs : List Effect)
    (h : ∀ e ∈ xs, e.isCreateWindow = false ∧ e.isDestroyWindow = false) :
    liveAfter L (x :: xs) = liveStep L x ∧
    peakLive L (x :: xs) = max L.length (liveStep L x).length := by
  have := live_idle xs h (liveStep L x)
  constructor
  · exact this.1
  · show max L.length (peakLive (liveStep L x) xs) = _
    rw [this.2]

theorem held_nil_or_singleton (L : List Nat) (hd : HWND) (hL1 : L.length ≤ 1)
    (hL2 : ∀ w ∈ L, hd = some w) : L = [] ∨ ∃ w, L = [w] ∧ hd = some w := by
  cases L with
  | nil => exact Or.inl rfl
  | cons w L =>
      cases L with
      | nil => exact Or.inr ⟨w, rfl, hL2 w (List.mem_cons_self _ _)⟩
      | cons v L => simp at hL1

theorem live_seq (L M N : List Nat) (xs ys : List Effect)
    (h1 : liveAfter L xs = M ∧ peakLive L xs ≤ 1)
    (h2 : liveAfter M ys = N ∧ peakLive M ys ≤ 1) :
    liveAfter L (xs ++ ys) = N ∧ peakLive L (xs ++ ys) ≤ 1 := by
  rw [liveAfter_append, peakLive_append, h1.1, h2.1]
  exact ⟨rfl, max_le h1.2 h2.2⟩

theorem live_idle_le (xs : List Effect)
    (h : ∀ e ∈ xs, e.isCreateWindow = false ∧ e.isDestroyWindow = false)
    (L : List Nat) (hL : L.length ≤ 1) : liveAfter L xs = L ∧ peakLive L xs ≤ 1 := by
  obtain ⟨h1, h2⟩ := live_idle xs h L
  exact ⟨h1, by rw [h2]; exact hL⟩

theorem live_Destroy (g : Globals) (self : Win32Window) (closing : List Delivery)
    (L : List Nat) (hL1 : L.length ≤ 1) (hL2 : ∀ w ∈ L, self.window_handle_ = some w) :
    liveAfter L (Destroy base g self closing).effects = [] ∧
    peakLive L (Destroy base g self closing).effects ≤ 1 := by
  rw [Destroy_base_effects]
  have hC : ∀ e ∈ (match self.controller_ with
      | some c => [Effect.FlutterDesktopViewControllerDestroy c]
      | none => []), e.isCreateWindow = false ∧ e.isDestroyWindow = false := by
    intro e he
    cases hc : self.controller_ with
    | none => simp [hc] at he
    | some c =>
        simp [hc] at he
        subst he
        exact ⟨rfl, rfl⟩
  have hQ : ∀ e ∈ (if g.g_active_window_count = 0 then [Effect.PostQuitMessage 0] else []),
      e.isCreateWindow = false ∧ e.isDestroyWindow = false := by
    intro e he
    split at he
    · simp at he
      subst he
      exact ⟨rfl, rfl⟩
    · simp at he
  have hW : liveAfter L (match self.window_handle_ with
      | some h =>
          Effect.DestroyWindow h ::
            (dispatch base h true { self with controller_ := none } closing).2.2
      | none => []) = [] ∧
      peakLive L (match self.window_handle_ with
      | some h =>
          Effect.DestroyWindow h ::
            (dispatch base h true { self with controller_ := none } closing).2.2
      | none => []) ≤ 1 := by
    have key : ∀ h, self.window_handle_ = some h → L.erase h = [] := by
      intro h hh
      rcases held_nil_or_singleton L _ hL1 hL2 with hnil | ⟨w, hw, hwh⟩
      · rw [hnil]
        rfl
      · rw [hh] at hwh
        simp only [Option.some.injEq] at hwh
        rw [hw, hwh]
        simp
    cases hh : self.window_handle_ with
    | none =>
        rcases held_nil_or_singleton L _ hL1 hL2 with hnil | ⟨w, _, hwh⟩
        · rw [hnil]
          exact ⟨rfl, by simp [peakLive]⟩
        · rw [hh] at hwh
          simp at hwh
    | some h =>
        obtain ⟨e1, e2⟩ := live_cons_idle L (Effect.DestroyWindow h) _
          (passive_idle _ (dispatch_base_passive h closing true
            { window_handle_ := some h, controller_ := none,
              quit_on_close_ := self.quit_on_close_ }))
        have hs : liveStep L (Effect.DestroyWindow h) = L.erase h := rfl
        rw [hs, key h hh] at e1 e2
        refine ⟨e1, ?_⟩
        dsimp only
        rw [e2]
        simpa using hL1
  exact live_seq L [] [] _ _ (live_seq L L [] _ _ (live_idle_le _ hC L hL1) hW)
    (live_idle_le _ hQ [] (by simp))

theorem live_Create (g : Globals) (self : Win32Window) (title : String) (origin : Point)
    (size : Size) (env : CreateEnv)
    (L : List Nat) (hL1 : L.length ≤ 1) (hL2 : ∀ w ∈ L, self.window_handle_ = some w) :
    liveAfter L (Create base g self title origin size env).effects =
      (returned env.creation).toList ∧
    peakLive L (Create base g self title origin size env).effects ≤ 1 := by
  obtain ⟨sent, hsent, heff⟩ := Create_base_effects g self title origin size env
  have hD := live_Destroy g self env.closing L hL1 hL2
  have hG : ∀ e ∈ (GetWindowClass g).2.2,
      e.isCreateWindow = false ∧ e.isDestroyWindow = false := by
    intro e he
    unfold GetWindowClass at he
    split at he
    · simp at he
    · simp at he
      subst he
      exact ⟨rfl, rfl⟩
  have hT : ∀ e ∈ (match returned env.creation with
      | none => []
      | some w =>
          Effect.UpdateTheme w ::
          Effect.EnableFullDpiSupport (some w) ::
          Effect.FlutterDesktopViewControllerCreate (some w) env.controller ::
          (match env.controller with
            | none => []
            | some c => [Effect.RegisterPlugins c, Effect.SetChildContent c])),
      e.isCreateWindow = false ∧ e.isDestroyWindow = false := by
    intro e he
    cases hr : returned env.creation with
    | none => simp [hr] at he
    | some w =>
        cases hc : env.controller <;> simp [hr, hc] at he <;>
          rcases he with rfl | rfl | rfl | rfl | rfl <;> exact ⟨rfl, rfl⟩
  have hlen : (returned env.creation).toList.length ≤ 1 := by
    cases returned env.creation <;> simp
  have hCW : liveAfter []
      (Effect.CreateWindow kWindowClassName title origin size env.dpi
        (returned env.creation) :: sent) = (returned env.creation).toList ∧
      peakLive []
      (Effect.CreateWindow kWindowClassName title origin size env.dpi
        (returned env.creation) :: sent) ≤ 1 := by
    obtain ⟨e1, e2⟩ := live_cons_idle []
      (Effect.CreateWindow kWindowClassName title origin size env.dpi
        (returned env.creation)) sent (passive_idle sent hsent)
    have hstep : liveStep []
        (Effect.CreateWindow kWindowClassName title origin size env.dpi
          (returned env.creation)) = (returned env.creation).toList := by
      cases returned env.creation <;> rfl
    rw [hstep] at e1 e2
    refine ⟨e1, ?_⟩
    rw [e2]
    simpa using hlen
  rw [heff]
  exact live_seq L _ _ _ _
    (live_seq L [] _ _ _ (live_seq L [] [] _ _ hD (live_idle_le _ hG [] (by simp))) hCW)
    (live_idle_le _ hT _ hlen)

theorem step_alone (a : Nat) (s : Process) (op : Op) (t : Process)
    (hop : op.address = a) (hs : ∀ b ∈ s.alive, b = a) (h : step s op = some t) :
    (∀ b ∈ t.alive, b = a) ∧ op.isCopy = false := by
  cases op with
  | construct b =>
      simp only [Op.address] at hop
      subst hop
      simp only [step] at h
      split at h
      · simp at h
      · simp only [Option.some.injEq] at h
        subst h
        refine ⟨?_, rfl⟩
        intro c hc
        rcases List.mem_cons.mp hc with hc | hc
        · exact hc
        · exact hs c hc
  | copyConstruct b other =>
      simp only [Op.address] at hop
      subst hop
      simp only [step] at h
      split at h
      · next hcond =>
          exact absurd (hs other hcond.2 ▸ hcond.2) hcond.1
      · simp at h
  | Create b title origin size env =>
      simp only [step] at h
      split at h
      · simp only [Option.some.injEq] at h
        subst h
        exact ⟨hs, rfl⟩
      · simp at h
  | Show b shown =>
      simp only [step] at h
      split at h
      · simp only [Option.some.injEq] at h
        subst h
        exact ⟨hs, rfl⟩
      · simp at h
  | SetQuitOnClose b q =>
      simp only [step] at h
      split at h
      · simp only [Option.some.injEq] at h
        subst h
        exact ⟨hs, rfl⟩
      · simp at h
  | Destroy b closing =>
      simp only [step] at h
      split at h
      · simp only [Option.some.injEq] at h
        subst h
        exact ⟨hs, rfl⟩
      · simp at h
  | destruct b closing =>
      simp only [step] at h
      split at h
      · simp only [Option.some.injEq] at h
        subst h
        exact ⟨fun c hc => hs c (List.mem_of_mem_erase hc), rfl⟩
      · simp at h

theorem step_single (a : Nat) (s : Process) (op : Op) (t : Process)
    (hop : op.address = a) (hcopy : op.isCopy = false)
    (hs : (liveAfter [] s.trace).length ≤ 1 ∧ peakLive [] s.trace ≤ 1 ∧
      ∀ w ∈ liveAfter [] s.trace, a ∈ s.alive ∧ (s.obj a).window_handle_ = some w)
    (h : step s op = some t) :
    (liveAfter [] t.trace).length ≤ 1 ∧ peakLive [] t.trace ≤ 1 ∧
      ∀ w ∈ liveAfter [] t.trace, a ∈ t.alive ∧ (t.obj a).window_handle_ = some w := by
  obtain ⟨h1, h2, h3⟩ := hs
  have hheld : ∀ w ∈ liveAfter [] s.trace, (s.obj a).window_handle_ = some w :=
    fun w hw => (h3 w hw).2
  cases op with
  | copyConstruct b other => simp [Op.isCopy] at hcopy
  | construct b =>
      simp only [Op.address] at hop
      subst hop
      simp only [step] at h
      split at h
      · simp at h
      · next hb =>
          simp only [Option.some.injEq] at h
          subst h
          refine ⟨h1, h2, ?_⟩
          intro w hw
          exact absurd (h3 w hw).1 hb
  | Create b title origin size env =>
      simp only [Op.address] at hop
      subst hop
      simp only [step] at h
      split at h
      · next hb =>
          simp only [Option.some.injEq] at h
          subst h
          obtain ⟨e1, e2⟩ := live_Create s.globals (s.obj b) title origin size env
            (liveAfter [] s.trace) h1 hheld
          simp only [liveAfter_append, peakLive_append, e1]
          refine ⟨?_, max_le h2 e2, ?_⟩
          · cases returned env.creation <;> simp
          · intro w hw
            refine ⟨hb, ?_⟩
            have hr : returned env.creation = some w := by
              cases hret : returned env.creation with
              | none => simp [hret] at hw
              | some v =>
                  simp [hret] at hw
                  rw [hw]
            obtain ⟨c, hc, _, hcw⟩ := returned_eq_some env.creation w hr
            simp [Create_base_self, hc, hcw]
      · simp at h
  | Show b shown =>
      simp only [Op.address] at hop
      subst hop
      simp only [step] at h
      split at h
      · simp only [Option.some.injEq] at h
        subst h
        have hidle : ∀ e ∈ (Show (s.obj b) shown).2,
            e.isCreateWindow = false ∧ e.isDestroyWindow = false := by
          intro e he
          simp [Show] at he
          subst he
          exact ⟨rfl, rfl⟩
        obtain ⟨e1, e2⟩ := live_idle_le _ hidle (liveAfter [] s.trace) h1
        simp only [liveAfter_append, peakLive_append, e1]
        exact ⟨h1, max_le h2 e2, h3⟩
      · simp at h
  | SetQuitOnClose b q =>
      simp only [Op.address] at hop
      subst hop
      simp only [step] at h
      split at h
      · simp only [Option.some.injEq] at h
        subst h
        refine ⟨h1, h2, ?_⟩
        intro w hw
        refine ⟨(h3 w hw).1, ?_⟩
        simpa [SetQuitOnClose] using (h3 w hw).2
      · simp at h
  | Destroy b closing =>
      simp only [Op.address] at hop
      subst hop
      simp only [step] at h
      split at h
      · simp only [Option.some.injEq] at h
        subst h
        obtain ⟨e1, e2⟩ := live_Destroy s.globals (s.obj b) closing
          (liveAfter [] s.trace) h1 hheld
        simp only [liveAfter_append, peakLive_append, e1]
        exact ⟨by simp, max_le h2 e2, by simp⟩
      · simp at h
  | destruct b closing =>
      simp only [Op.address] at hop
      subst hop
      simp only [step] at h
      split at h
      · simp only [Option.some.injEq] at h
        subst h
        obtain ⟨e1, e2⟩ := live_Destroy
          { s.globals with g_active_window_count := s.globals.g_active_window_count - 1 }
          (s.obj b) closing (liveAfter [] s.trace) h1 hheld
        simp only [liveAfter_append, peakLive_append, destruct, e1]
        exact ⟨by simp, max_le h2 e2, by simp⟩
      · simp at h

theorem Create_base_on_window (g : Globals) (self : Win32Window) (title : String)
    (origin : Point) (size : Size) (env : CreateEnv) (w : Nat)
    (hw : self.window_handle_ = some w) :
    ∃ mid rest : List Effect,
      (Create base g self title origin size env).effects =
        (match self.controller_ with
          | some c => [Effect.FlutterDesktopViewControllerDestroy c]
          | none => []) ++
        Effect.DestroyWindow w :: mid ++
        Effect.CreateWindow kWindowClassName title origin size env.dpi
          (returned env.creation) :: rest ∧
      (∀ e ∈ mid, e.isCreateWindow = false ∧ e.isDestroyWindow = false) ∧
      (∀ e ∈ rest, e.isCreateWindow = false ∧ e.isDestroyWindow = false) := by
  obtain ⟨sent, hsent, heff⟩ := Create_base_effects g self title origin size env
  refine ⟨(dispatch base w true { self with controller_ := none } env.closing).2.2 ++
      (if g.g_active_window_count = 0 then [Effect.PostQuitMessage 0] else []) ++
      (GetWindowClass g).2.2,
    sent ++ (match returned env.creation with
      | none => []
      | some w =>
          Effect.UpdateTheme w ::
          Effect.EnableFullDpiSupport (some w) ::
          Effect.FlutterDesktopViewControllerCreate (some w) env.controller ::
          (match env.controller with
            | none => []
            | some c => [Effect.RegisterPlugins c, Effect.SetChildContent c])), ?_, ?_, ?_⟩
  · rw [heff, Destroy_base_effects]
    simp [hw, List.append_assoc]
  · intro e he
    simp only [List.mem_append] at he
    rcases he with (he | he) | he
    · exact passive_idle _ (dispatch_base_passive w env.closing true _) e he
    · split at he
      · simp at he
        subst he
        exact ⟨rfl, rfl⟩
      · simp at he
    · unfold GetWindowClass at he
      split at he
      · simp at he
      · simp at he
        subst he
        exact ⟨rfl, rfl⟩
  · intro e he
    simp only [List.mem_append] at he
    rcases he with he | he
    · exact passive_idle sent hsent e he
    · cases hr : returned env.creation with
      | none => simp [hr] at he
      | some v =>
          cases hc : env.controller <;> simp [hr, hc] at he <;>
            rcases he with rfl | rfl | rfl | rfl | rfl <;> exact ⟨rfl, rfl⟩

/-- C6: `Create` on an instance that holds window `w` first destroys the
controller the instance holds, if any, then calls `DestroyWindow` for `w`, and
only later calls `CreateWindow`; its trace holds no other `DestroyWindow` or
`CreateWindow` call.  Over every sequence of operations on one instance, at no
point of the trace do two windows exist, and every window that exists at the
end is the one whose handle the instance holds, so that the next `Create`,
`Destroy` or destructor destroys it. -/
theorem second_Create_destroys_first_window (a : Nat) (ops : List Op) (s : Process)
    (hops : ∀ op ∈ ops, op.address = a) (h : run start ops = some s) :
    peakLive [] s.trace ≤ 1 ∧
    (∀ w ∈ liveAfter [] s.trace, a ∈ s.alive ∧ (s.obj a).window_handle_ = some w) ∧
    (∀ (g : Globals) (self : Win32Window) (title : String) (origin : Point) (size : Size)
      (env : CreateEnv) (w : Nat), self.window_handle_ = some w →
      ∃ mid rest : List Effect,
        (Create base g self title origin size env).effects =
          (match self.controller_ with
            | some c => [Effect.FlutterDesktopViewControllerDestroy c]
            | none => []) ++
          Effect.DestroyWindow w :: mid ++
          Effect.CreateWindow kWindowClassName title origin size env.dpi
            (returned env.creation) :: rest ∧
        (∀ e ∈ mid, e.isCreateWindow = false ∧ e.isDestroyWindow = false) ∧
        (∀ e ∈ rest, e.isCreateWindow = false ∧ e.isDestroyWindow = false)) := by
  have inv := run_invariant_on (fun op => op.address = a)
    (fun s => (∀ b ∈ s.alive, b = a) ∧
      (liveAfter [] s.trace).length ≤ 1 ∧ peakLive [] s.trace ≤ 1 ∧
      ∀ w ∈ liveAfter [] s.trace, a ∈ s.alive ∧ (s.obj a).window_handle_ = some w)
    (fun s op t hq hs hst =>
      ⟨(step_alone a s op t hq hs.1 hst).1,
       step_single a s op t hq (step_alone a s op t hq hs.1 hst).2 hs.2 hst⟩)
    ops start s hops (by simp [start, liveAfter, peakLive]) h
  exact ⟨inv.2.2.1, inv.2.2.2, Create_base_on_window⟩

/-- Witness for C6: `Create` succeeds twice in a row on one instance; one
window exists at the end and the instance holds it. -/
theorem second_Create_destroys_first_window_witness :
    (∀ op ∈ sampleRecreate, op.address = 0) ∧
    run start sampleRecreate = some (after sampleRecreate) ∧
    liveAfter [] (after sampleRecreate).trace = [7] ∧
    peakLive [] (after sampleRecreate).trace ≤ 1 ∧
    (∀ w ∈ liveAfter [] (after sampleRecreate).trace,
      0 ∈ (after sampleRecreate).alive ∧
      ((after sampleRecreate).obj 0).window_handle_ = some w) :=
  ⟨by decide, rfl, by decide,
   (second_Create_destroys_first_window 0 sampleRecreate (after sampleRecreate)
      (by decide) rfl).1,
   (second_Create_destroys_first_window 0 sampleRecreate (after sampleRecreate)
      (by decide) rfl).2.1⟩

end Runner
